import Mathlib

/-!
Verification of the Kingdom Simulator simulation core (src/main.tsx and the
app variants in src/unnamed/part_000) against its natural-language
specification.

The game state ("Ledger") and every command are translated from the
TypeScript source into executable Lean definitions.  All in-game arithmetic
is integer-valued (random draws produce integers, every fractional
computation is immediately floored); the two places where JavaScript doubles
appear — `Math.floor(people * 0.75)` and
`Math.floor(base * (discPct / 100))` — were checked to agree with exact
integer arithmetic on every reachable input (ration for all population
sizes, discount for every catalog price × every discount tier), so the
embedding uses `Int` with floor division.

Randomness: the source draws via `rand(a, b) = Math.floor(Math.random()*(b-a+1))+a`
and raw `Math.random()` comparisons/indexing.  We model the RNG as a stream
of natural numbers (`Rng := List Nat`); each primitive consumes one draw.
Every concrete outcome of the real RNG is realised by some stream, and every
stream realises a possible outcome, so universally quantifying over `Rng`
captures "for any RNG sequence" and existential witnesses use concrete
streams.

React `set(prev => ...)` updater chains are modelled by sequential state
threading in source order; stale-closure reads in the source (`s.policies`,
`s.currentEra`, merchant fields read inside `random_event` after the sleep
update) are of fields the preceding updates never modify, so the sequential
reading is faithful.

Where a source branch both appends a log line and updates non-log fields,
the two operations commute (the log id depends only on the log itself and
every log text is computed from the pre-update state), so the embedding
uniformly applies the field update first and `appendLog` last; the
resulting state is identical for either order.
-/

set_option maxRecDepth 100000

/-- RNG stream: a list of natural draws; an exhausted stream yields 0. -/
abbrev Rng := List Nat

/-- Consume one raw draw from the stream. -/
def draw (g : Rng) : Nat × Rng :=
  match g with
  | [] => (0, [])
  | n :: r => (n, r)

/-- The source's `rand(a, b) = Math.floor(Math.random()*(b-a+1))+a`:
an inclusive uniform integer in [a, b]. -/
def randIn (a b : Int) (g : Rng) : Int × Rng :=
  let d := draw g
  (a + ((d.1 % (b - a + 1).toNat : Nat) : Int), d.2)

/-- A `Math.random() < 0.5` coin flip. -/
def coin (g : Rng) : Bool × Rng :=
  let d := draw g
  (d.1 % 2 == 0, d.2)

/-- A `Math.floor(Math.random() * len)` uniform index draw. -/
def pickIdx (len : Nat) (g : Rng) : Nat × Rng :=
  let d := draw g
  (d.1 % len, d.2)

/-- The source's `clamp(v, lo, hi) = Math.max(lo, Math.min(hi, v))`. -/
def clamp (v lo hi : Int) : Int := max lo (min hi v)

/-- Log entry tags, as in the source's `Tag` union type. -/
inductive Tag where
  | event | good | warn | danger | system | merchant | muted
  deriving DecidableEq, Repr

/-- One log entry: `{ text, tag, id }`. -/
structure LogEntry where
  text : String
  tag : Tag
  id : Int
  deriving DecidableEq, Repr

/-- Inventory record, 7 potion counters and 4 food counters. -/
structure Inventory where
  hpotion : Int
  dpotion : Int
  mpotion : Int
  spotion : Int
  lightning_potion : Int
  sleep_potion : Int
  poison_potion : Int
  bread : Int
  meat : Int
  fruit : Int
  cheese : Int
  deriving DecidableEq, Repr

/-- A policy entry `{ locked, active, desc }`. -/
structure Policy where
  locked : Bool
  active : Bool
  desc : String
  deriving DecidableEq, Repr

/-- Enemy configuration. -/
structure EnemyCfg where
  health : Int
  damage_min : Int
  damage_max : Int
  coins_min : Int
  coins_max : Int
  deriving DecidableEq, Repr

/-- Era identifiers 1..7 (the keys of the source's `ERAS` record). -/
inductive EraId where
  | e1 | e2 | e3 | e4 | e5 | e6 | e7
  deriving DecidableEq, Repr

/-- The `owned_weapon` record: highest owned weapon id per era. -/
structure Owned where
  w1 : Int
  w2 : Int
  w3 : Int
  w4 : Int
  w5 : Int
  w6 : Int
  w7 : Int
  deriving DecidableEq, Repr

/-- Read `owned_weapon[era]`. -/
def Owned.get (o : Owned) : EraId → Int
  | .e1 => o.w1 | .e2 => o.w2 | .e3 => o.w3 | .e4 => o.w4
  | .e5 => o.w5 | .e6 => o.w6 | .e7 => o.w7

/-- Write `owned_weapon[era] = v`. -/
def Owned.set (o : Owned) (e : EraId) (v : Int) : Owned :=
  match e with
  | .e1 => { o with w1 := v } | .e2 => { o with w2 := v }
  | .e3 => { o with w3 := v } | .e4 => { o with w4 := v }
  | .e5 => { o with w5 := v } | .e6 => { o with w6 := v }
  | .e7 => { o with w7 := v }

/-- Effect discriminator of a unique merchant offer. -/
inductive UEffect where
  | happiness | maxstrength
  deriving DecidableEq, Repr

/-- A pending merchant offer (weapon or unique item). -/
inductive MerchantOffer where
  | weapon (name : String) (bonus : Int) (price : Int)
  | unique (name : String) (effect : Option UEffect) (value : Int) (price : Int)
  deriving DecidableEq, Repr

/-- Price of an offer. -/
def MerchantOffer.price : MerchantOffer → Int
  | .weapon _ _ p => p
  | .unique _ _ _ p => p

/-- Combat sub-state.  The `over` flag exists in the part_000 variants'
`FightState`; src/main.tsx's record has only `cfg`, `stunned`, `poisonTurns`
and its commands never read `over`, so carrying the field is unobservable to
the main.tsx translations below. -/
structure FightState where
  cfg : Option EnemyCfg
  stunned : Bool
  poisonTurns : Int
  over : Bool
  deriving DecidableEq, Repr

/-- The Ledger: the single aggregate game state record. -/
structure State where
  name : String
  day : Int
  death_day : Int
  money : Int
  exmoney : Int
  pmoney : Int
  people : Int
  maxpeople : Int
  happiness : Int
  phealth : Int
  maxphealth : Int
  strength : Int
  maxstrength : Int
  ehealth : Int
  inventory : Inventory
  currentEra : String
  currentSword : String
  minDmg : Int
  maxDmg : Int
  wfight : Int
  lfight : Int
  merchant_relationship : Int
  merchant_weapon_log : List (String × Bool)
  last_merchant_offer_type : Option String
  number : Int
  owned_weapon : Owned
  policies : List (String × Policy)
  logs : List LogEntry
  pendingMerchant : Option MerchantOffer
  fight : FightState

/-- Last `n` elements of a list, as in JavaScript `slice(-n)`. -/
def sliceLast (n : Nat) (l : List α) : List α := l.drop (l.length - n)

/-- The source's `appendLog`: append an entry with the next id and keep the
last 600 entries. -/
def appendLog (s : State) (text : String) (tag : Tag) : State :=
  let nextId : Int :=
    match s.logs.getLast? with
    | some e => e.id + 1
    | none => 1
  { s with logs := sliceLast 600 (s.logs ++ [{ text := text, tag := tag, id := nextId }]) }

/-- Object-spread write `{ ...m, [k]: v }` on a string-keyed record. -/
def setKeyB : List (String × Bool) → String → Bool → List (String × Bool)
  | [], k, v => [(k, v)]
  | (k0, v0) :: rest, k, v =>
      if k0 = k then (k0, v) :: rest else (k0, v0) :: setKeyB rest k v

/-- Read a policy by name (all reachable lookups hit an existing key). -/
def getPolicy (ps : List (String × Policy)) (k : String) : Policy :=
  (ps.lookup k).getD { locked := true, active := false, desc := "" }

/-- Update a policy by name with `f`, as the source's per-key object spread. -/
def setPolicy : List (String × Policy) → String → (Policy → Policy) → List (String × Policy)
  | [], _, _ => []
  | (k0, p0) :: rest, k, f =>
      if k0 = k then (k0, f p0) :: rest else (k0, p0) :: setPolicy rest k f

/-- Fight difficulty selector. -/
inductive Diff where
  | EASY | MEDIUM | HARD
  deriving DecidableEq, Repr

/-- The `ENEMY` table. -/
def ENEMY : Diff → EnemyCfg
  | .EASY => { health := 100, damage_min := 2, damage_max := 7, coins_min := 50, coins_max := 150 }
  | .MEDIUM => { health := 200, damage_min := 7, damage_max := 12, coins_min := 100, coins_max := 500 }
  | .HARD => { health := 300, damage_min := 10, damage_max := 20, coins_min := 150, coins_max := 800 }

/-- Rarity of a merchant catalog entry. -/
inductive Rarity where
  | Common | Rare | Epic
  deriving DecidableEq, Repr

/-- One merchant catalog entry. -/
structure MerchItem where
  name : String
  bonus : Int
  price : Int
  rarity : Rarity
  deriving DecidableEq, Repr

/-- The `MERCHANT_BY_ERA` catalog. -/
def MERCHANT_BY_ERA : List (String × List MerchItem) :=
  [("Stone Age",
    [{ name := "Sharpened Bone", bonus := 15, price := 600, rarity := .Common },
     { name := "Jagged Flint Axe", bonus := 20, price := 1200, rarity := .Rare },
     { name := "Mammoth Fang Blade", bonus := 30, price := 2000, rarity := .Epic }]),
   ("Bronze Age",
    [{ name := "Bronze Shortblade", bonus := 22, price := 1400, rarity := .Common },
     { name := "Fire-Hardened Spear", bonus := 30, price := 2400, rarity := .Rare },
     { name := "Sun-Kissed Dagger", bonus := 38, price := 3500, rarity := .Epic }]),
   ("Iron Age",
    [{ name := "Iron Cleaver", bonus := 35, price := 3000, rarity := .Common },
     { name := "Spiked Mace", bonus := 42, price := 4000, rarity := .Rare },
     { name := "Molten Iron Blade", bonus := 52, price := 5500, rarity := .Epic }]),
   ("Roman Age",
    [{ name := "Legionnaire’s Gladius", bonus := 40, price := 3500, rarity := .Common },
     { name := "Colosseum Cutter", bonus := 50, price := 5000, rarity := .Rare },
     { name := "Centurion’s Edge", bonus := 65, price := 7500, rarity := .Epic }]),
   ("Medievil Age",
    [{ name := "Crusader Sword", bonus := 50, price := 5000, rarity := .Common },
     { name := "Dragonsteel Falchion", bonus := 60, price := 7000, rarity := .Rare },
     { name := "Vampire Slayer", bonus := 80, price := 10000, rarity := .Epic }]),
   ("Electric Age",
    [{ name := "Insulated Cutter", bonus := 65, price := 7000, rarity := .Common },
     { name := "Arc Blade", bonus := 80, price := 10000, rarity := .Rare },
     { name := "Tesla Edge", bonus := 100, price := 15000, rarity := .Epic }]),
   ("Modern Age",
    [{ name := "Composite Tactical Knife", bonus := 75, price := 9000, rarity := .Common },
     { name := "Smartsteel Katana", bonus := 95, price := 12000, rarity := .Rare },
     { name := "Prototype Laser Saber", bonus := 120, price := 20000, rarity := .Epic }])]

/-- One shop weapon entry. -/
structure Weapon where
  id : Int
  era : EraId
  name : String
  price : Int
  damage : Int
  deriving DecidableEq, Repr

/-- The `WEAPONS` shop table. -/
def WEAPONS : List Weapon :=
  [{ id := 1, era := .e1, name := "Pebble", price := 1000, damage := 2 },
   { id := 2, era := .e1, name := "Stone", price := 5000, damage := 5 },
   { id := 3, era := .e1, name := "Rock", price := 7500, damage := 7 },
   { id := 4, era := .e1, name := "Chiselled Stone", price := 12000, damage := 12 },
   { id := 5, era := .e1, name := "Sharpened Rock", price := 16000, damage := 15 },
   { id := 1, era := .e3, name := "Iron Spear", price := 165000, damage := 34 },
   { id := 2, era := .e3, name := "Steel Sword", price := 200000, damage := 38 },
   { id := 3, era := .e3, name := "Lance", price := 220000, damage := 42 },
   { id := 4, era := .e3, name := "Axe", price := 235000, damage := 46 },
   { id := 5, era := .e3, name := "Bow", price := 260000, damage := 50 },
   { id := 1, era := .e5, name := "Socketed Axe", price := 30000, damage := 17 },
   { id := 2, era := .e5, name := "Dagger", price := 45000, damage := 20 },
   { id := 3, era := .e5, name := "Sickle Sword", price := 60000, damage := 24 },
   { id := 4, era := .e5, name := "Reinforced Axe", price := 90000, damage := 27 },
   { id := 5, era := .e5, name := "Dead Oak Bow", price := 120000, damage := 30 },
   { id := 1, era := .e6, name := "Glock", price := 1045000, damage := 98 },
   { id := 2, era := .e6, name := "Uzi", price := 1100000, damage := 100 },
   { id := 3, era := .e6, name := "Maxim Gun", price := 1150000, damage := 102 },
   { id := 4, era := .e6, name := "AK-47", price := 1200000, damage := 104 },
   { id := 5, era := .e6, name := "M1 Garand", price := 1300000, damage := 106 },
   { id := 1, era := .e7, name := "Composite Knife", price := 9000, damage := 75 },
   { id := 2, era := .e7, name := "Smartsteel Katana", price := 12000, damage := 95 },
   { id := 3, era := .e7, name := "Laser Saber", price := 20000, damage := 120 }]

/-- The `ERA_SEQ` expansion sequence. -/
def ERA_SEQ : List String :=
  ["Bronze Age", "Iron Age", "Roman Age", "Medievil Age", "Electric Age", "Modern Age"]

/-- The default policy table of a fresh game. -/
def initialPolicies : List (String × Policy) :=
  [("Universal Tax", { locked := true, active := false, desc := "Gain more tax money, but lower happiness." }),
   ("Charity Relief", { locked := true, active := false, desc := "Lose money per day to boost happiness." }),
   ("Royal Festival", { locked := true, active := false, desc := "Auto-celebrates a festival every 5 days." }),
   ("Food Rationing", { locked := true, active := false, desc := "Reduce food consumption, reduce happiness." }),
   ("Open Borders", { locked := true, active := false, desc := "Chance for more migrants, but occasional unrest." }),
   ("Public Health", { locked := true, active := false, desc := "Reduces sickness, small gold cost daily." }),
   ("Work Tax Rebate", { locked := true, active := false, desc := "Boost worker morale, costs coins." }),
   ("Electric Welfare", { locked := true, active := false, desc := "Auto-fixes disasters. Electric+ only." })]

/-- The source's `initialState()`; the single RNG draw fixes `death_day`. -/
def initialState (g : Rng) : State :=
  { name := "kingdom name"
    day := 1
    death_day := (randIn 80 150 g).1
    money := 999990
    exmoney := 5000
    pmoney := 0
    people := 50
    maxpeople := 50
    happiness := 50
    phealth := 100
    maxphealth := 100
    strength := 3
    maxstrength := 3
    ehealth := 100
    inventory :=
      { hpotion := 0, dpotion := 0, mpotion := 0, spotion := 0,
        lightning_potion := 0, sleep_potion := 0, poison_potion := 0,
        bread := 10, meat := 0, fruit := 0, cheese := 0 }
    currentEra := "Stone Age"
    currentSword := "None"
    minDmg := 5
    maxDmg := 15
    wfight := 0
    lfight := 0
    merchant_relationship := 0
    merchant_weapon_log := []
    last_merchant_offer_type := none
    number := -1
    owned_weapon := { w1 := 0, w2 := 0, w3 := 0, w4 := 0, w5 := 0, w6 := 0, w7 := 0 }
    policies := initialPolicies
    logs := []
    pendingMerchant := none
    fight := { cfg := none, stunned := false, poisonTurns := 0, over := false } }

/-- The source's `discountedPrice(base)`:
`discPct = merchant_relationship * 6; disc = Math.floor(base * (discPct/100))`.
The double computation `base * (discPct/100)` agrees with exact rational
arithmetic on every catalog price × discount tier, so floor division on
`Int` is a faithful translation. -/
def discountedPrice (s : State) (base : Int) : Int × Int :=
  let discPct := s.merchant_relationship * 6
  let disc := (base * discPct).fdiv 100
  (base - disc, discPct)

/-- The source's `buyMerchant()` (identical in all three variants up to the
flat +5 happiness / +1 maxstrength applied by src/main.tsx's unique branch). -/
def buyMerchant (s : State) : State :=
  match s.pendingMerchant with
  | none => s
  | some p =>
    if s.money < p.price then
      appendLog s "You cannot afford it." Tag.warn
    else
      match p with
      | .weapon nm bonus price =>
        let s1 := { s with
          money := s.money - price
          minDmg := 5 + bonus
          maxDmg := 15 + bonus
          currentSword := s!"{nm} (+{bonus} DMG)"
          merchant_weapon_log := setKeyB s.merchant_weapon_log s.currentEra true
          merchant_relationship := min 5 (s.merchant_relationship + 1)
          pendingMerchant := none }
        appendLog s1 s!"You purchased {nm}." Tag.merchant
      | .unique nm eff _v price =>
        let h2 := if eff = some UEffect.happiness then clamp (s.happiness + 5) 0 100 else s.happiness
        let m2 := if eff = some UEffect.maxstrength then s.maxstrength + 1 else s.maxstrength
        let s1 := { s with
          money := s.money - price
          happiness := h2
          maxstrength := m2
          merchant_relationship := min 5 (s.merchant_relationship + 1)
          pendingMerchant := none }
        appendLog s1 s!"You bought {nm}." Tag.merchant

/-- Weight used by the merchant's weighted pool: 3 copies for Common,
2 for Rare, 1 for Epic. -/
def rarityWeight : Rarity → Nat
  | .Common => 3
  | .Rare => 2
  | .Epic => 1

/-- Display label of a rarity (used in the merchant offer log line). -/
def rarityLabel : Rarity → String
  | .Common => "Common"
  | .Rare => "Rare"
  | .Epic => "Epic"

/-- Fallback element for the (always reachable-nonempty) uniform list draws. -/
def defaultMerchItem : MerchItem := { name := "", bonus := 0, price := 0, rarity := .Common }

/-- Name of an offer (`offer.name` in the source). -/
def MerchantOffer.mname : MerchantOffer → String
  | .weapon n _ _ => n
  | .unique n _ _ _ => n

/-- Replace the price of an offer (the source's `{ ...sel, price: final }`). -/
def MerchantOffer.withPrice : MerchantOffer → Int → MerchantOffer
  | .weapon n b _, p => .weapon n b p
  | .unique n e v _, p => .unique n e v p

/-- The fixed 3-item unique-offer table of `merchant_event`. -/
def rareTable : List MerchantOffer :=
  [MerchantOffer.unique "Golden Cheese" (some UEffect.happiness) 5 700,
   MerchantOffer.unique "Ancient Scroll" (some UEffect.maxstrength) 1 1000,
   MerchantOffer.unique "Map Fragment" none 0 800]

/-- Offer-type selection of `merchant_event()`: "weapon" only when the era
has a catalog, the era is not bought out, a 3% roll succeeds and the last
offer was not already a weapon; forced back to "unique" when it equals the
last offer type. -/
def merchantOfferType (s : State) (g : Rng) : String × Rng :=
  let sel1 :=
    if ((MERCHANT_BY_ERA.lookup s.currentEra).isSome
        ∧ ¬ (s.merchant_weapon_log.lookup s.currentEra).isSome) then
      let d := randIn 1 100 g
      (if d.1 ≤ 3 ∧ s.last_merchant_offer_type ≠ some "weapon" then "weapon" else "unique", d.2)
    else ("unique", g)
  (if some sel1.1 = s.last_merchant_offer_type then "unique" else sel1.1, sel1.2)

/-- Weapon branch of `merchant_event()`: draw from the rarity-weighted pool,
apply the relationship discount, log and store the offer. -/
def merchantOfferWeapon (s : State) (g : Rng) : State × Rng :=
  let pool := (MERCHANT_BY_ERA.lookup s.currentEra).getD []
  let weighted := pool.flatMap (fun w => List.replicate (rarityWeight w.rarity) w)
  let i := pickIdx weighted.length g
  let sel := weighted.getD i.1 defaultMerchItem
  let fd := discountedPrice s sel.price
  let rar := rarityLabel sel.rarity
  let nm := sel.name
  let bonus := sel.bonus
  let fin := fd.1
  let discPct := fd.2
  (appendLog
    { s with pendingMerchant := some (MerchantOffer.weapon nm bonus fin),
             last_merchant_offer_type := some "weapon" }
    s!"Merchant offers a {rar} weapon: {nm} (+{bonus} DMG). Price {fin} coins ({discPct}% off)."
    Tag.merchant, i.2)

/-- Unique branch of `merchant_event()`: draw uniformly from the rare table
minus the last offered name, apply the discount, log and store the offer. -/
def merchantOfferUnique (s : State) (g : Rng) : State × Rng :=
  let rare := rareTable.filter (fun x => some x.mname ≠ s.last_merchant_offer_type)
  let i := pickIdx rare.length g
  let sel := rare.getD i.1 (MerchantOffer.unique "" none 0 0)
  let fd := discountedPrice s sel.price
  let nm := sel.mname
  let fin := fd.1
  (appendLog
    { s with pendingMerchant := some (sel.withPrice fin),
             last_merchant_offer_type := some nm }
    s!"Merchant offers {nm}. Price {fin} coins." Tag.merchant, i.2)

/-- The source's `merchant_event()`: select an offer type, then produce the
weapon or unique offer. -/
def merchant_event (s : State) (g : Rng) : State × Rng :=
  if (merchantOfferType s g).1 = "weapon" then
    merchantOfferWeapon s (merchantOfferType s g).2
  else
    merchantOfferUnique s (merchantOfferType s g).2

/-- Protest bucket (roll 1-10) of `random_event`. -/
def reProtest (s : State) (g : Rng) : State × Rng :=
  let l := randIn 100 300 g
  let h := randIn 5 15 l.2
  let loss := l.1
  (appendLog
    { s with pmoney := s.pmoney + 1, money := max 0 (s.money - loss),
             happiness := clamp (s.happiness - h.1) 0 100 }
    s!"Protest in the streets. Lost {loss} coins. Happiness reduced." Tag.warn, h.2)

/-- Rogue-faction bucket (roll 11-20) of `random_event`: 60% win, else a
loss of people and coins. -/
def reRogue (s : State) (g : Rng) : State × Rng :=
  if (randIn 1 10 g).1 ≤ 6 then
    let rw := randIn 300 800 (randIn 1 10 g).2
    let reward := rw.1
    (appendLog { s with money := s.money + reward }
      s!"You repelled a rogue faction and looted {reward} coins." Tag.good, rw.2)
  else
    let ls := randIn 100 400 (randIn 1 10 g).2
    let cas := randIn 3 10 ls.2
    let loss := ls.1
    let casualties := cas.1
    (appendLog
      { s with people := max 0 (s.people - casualties),
               money := max 0 (s.money - loss) }
      s!"You lost to a rogue faction. {casualties} people and {loss} coins lost." Tag.warn, cas.2)

/-- Disaster bucket (roll 31-40) of `random_event`: 50/50 famine or flood. -/
def reDisaster (s : State) (g : Rng) : State × Rng :=
  if (coin g).1 then
    let lt := randIn 5 15 (coin g).2
    let lost := lt.1
    (appendLog
      { s with people := max 0 (s.people - lost),
               inventory := { s.inventory with bread := max 0 (s.inventory.bread - lost) },
               happiness := clamp (s.happiness - 10) 0 100 }
      s!"Famine struck. {lost} people died and food supplies dwindled." Tag.warn, lt.2)
  else
    let lt := randIn 10 20 (coin g).2
    let loss := lt.1
    (appendLog
      { s with inventory := { s.inventory with bread := max 0 (s.inventory.bread - loss) },
               happiness := clamp (s.happiness - 5) 0 100 }
      s!"Flooding damaged crops. {loss} bread lost." Tag.warn, lt.2)

/-- Royal-decision bucket (roll 41-50) of `random_event`. -/
def reRoyal (s : State) (g : Rng) : State × Rng :=
  (appendLog { s with happiness := clamp (s.happiness + 10) 0 100 }
    "A royal decision pleased the people. Happiness rises." Tag.good, g)

/-- Relic bucket (roll 51-55) of `random_event`: 50/50 cursed or blessed. -/
def reRelic (s : State) (g : Rng) : State × Rng :=
  if (coin g).1 then
    (appendLog
      { s with happiness := clamp (s.happiness - 10) 0 100,
               money := max 0 (s.money - 200) }
      "A cursed relic brought misfortune." Tag.warn, (coin g).2)
  else
    (appendLog
      { s with happiness := clamp (s.happiness + 10) 0 100,
               money := s.money + 500 }
      "An enchanted relic blessed the land. +500 coins." Tag.good, (coin g).2)

/-- Names of the currently locked policies, in table order
(`Object.keys(policies).filter(k => locked)`). -/
def lockedKeys (s : State) : List String :=
  (s.policies.filter (fun kp => kp.2.locked)).map (fun kp => kp.1)

/-- Policy-unlock bucket (roll 56-60) of `random_event`: when a locked
policy exists, unlock one uniformly at random and log it; otherwise nothing
happens and nothing is logged. -/
def rePolicyUnlock (s : State) (g : Rng) : State × Rng :=
  if (lockedKeys s).length ≠ 0 then
    let i := pickIdx (lockedKeys s).length g
    let key := (lockedKeys s).getD i.1 ""
    let desc := (getPolicy s.policies key).desc
    (appendLog { s with policies := setPolicy s.policies key (fun p => { p with locked := false }) }
      s!"New policy emerged: {key}. {desc}" Tag.system, i.2)
  else (s, g)

/-- Festival bucket (roll 61-70) of `random_event`. -/
def reFestival (s : State) (g : Rng) : State × Rng :=
  let b := randIn 10 30 g
  let bonus := b.1
  (appendLog { s with happiness := clamp (s.happiness + bonus) 0 100 }
    s!"A festival boosted morale. +{bonus} happiness." Tag.good, b.2)

/-- Treasure bucket (roll 71-80) of `random_event`. -/
def reTreasure (s : State) (g : Rng) : State × Rng :=
  let cs := randIn 200 600 g
  let coins := cs.1
  (appendLog { s with money := s.money + coins }
    s!"Buried treasure found. +{coins} coins." Tag.good, cs.2)

/-- Calm-day bucket (roll 81-100) of `random_event`: log only. -/
def reCalm (s : State) (g : Rng) : State × Rng :=
  (appendLog s "A calm day passes." Tag.muted, g)

/-- The Random Event Resolver (`random_event`): draw a roll in [1,100] and
dispatch through the source's cumulative `roll <= k` chain into exactly one
bucket. -/
def random_event (s : State) (g : Rng) : State × Rng :=
  if (randIn 1 100 g).1 ≤ 10 then reProtest s (randIn 1 100 g).2
  else if (randIn 1 100 g).1 ≤ 20 then reRogue s (randIn 1 100 g).2
  else if (randIn 1 100 g).1 ≤ 30 then merchant_event s (randIn 1 100 g).2
  else if (randIn 1 100 g).1 ≤ 40 then reDisaster s (randIn 1 100 g).2
  else if (randIn 1 100 g).1 ≤ 50 then reRoyal s (randIn 1 100 g).2
  else if (randIn 1 100 g).1 ≤ 55 then reRelic s (randIn 1 100 g).2
  else if (randIn 1 100 g).1 ≤ 60 then rePolicyUnlock s (randIn 1 100 g).2
  else if (randIn 1 100 g).1 ≤ 70 then reFestival s (randIn 1 100 g).2
  else if (randIn 1 100 g).1 ≤ 80 then reTreasure s (randIn 1 100 g).2
  else reCalm s (randIn 1 100 g).2

/-- The era flavour-text table inside `command_sleep`. -/
def FLAVOUR : List (String × String) :=
  [("Stone Age", "Your people are learning to craft stone tools."),
   ("Bronze Age", "Metalworking begins to shape the future of your army."),
   ("Iron Age", "Blacksmiths forge powerful weapons."),
   ("Roman Age", "Infrastructure expands under imperial guidance."),
   ("Medievil Age", "Armies are growing and the people whisper of war."),
   ("Electric Age", "Inventions surge across your cities."),
   ("Modern Age", "Skyscrapers rise as society industrialises.")]

/-- The terminal death-day log line of `command_sleep`. -/
def deathText : String := "Your time has come. Your kingdom now lives on in legend."

/-- The secondary random roll inside `command_sleep` (src/main.tsx lines
449-462, identical in the part_000 third variant at lines 1741-1744): one
draw in [1,100]; 1-15 bandit raid, 16-30 festival, 31-40 travellers, no
effect otherwise. -/
def sleep_random_bonus (next : State) (g : Rng) : State × Rng :=
  if (randIn 1 100 g).1 ≤ 15 then
    let l := randIn 50 200 (randIn 1 100 g).2
    let loss := l.1
    let n2 := { next with money := max 0 (next.money - loss) }
    (appendLog n2 s!"Bandits raided your treasury. Lost {loss} coins." Tag.warn, l.2)
  else if (randIn 1 100 g).1 ≤ 30 then
    let gd := randIn 5 15 (randIn 1 100 g).2
    let gain := gd.1
    let n2 := { next with happiness := clamp (next.happiness + gain) 0 100 }
    (appendLog n2 s!"Festival. Happiness +{gain}." Tag.good, gd.2)
  else if (randIn 1 100 g).1 ≤ 40 then
    let pd := randIn 3 10 (randIn 1 100 g).2
    let p := pd.1
    let n2 := { next with people := min next.maxpeople (next.people + p) }
    (appendLog n2 s!"Travellers joined your kingdom. +{p} population." Tag.good, pd.2)
  else (next, (randIn 1 100 g).2)

/-- Required food per day: `people`, or `Math.floor(people * 0.75)` (exact
in doubles, so floor division) under Food Rationing. -/
def requiredFood (s : State) : Int :=
  if (getPolicy s.policies "Food Rationing").active then (3 * s.people).fdiv 4 else s.people

/-- Start of the `command_sleep` updater (src/main.tsx lines 427-447):
restore strength, advance the day, and consume food or apply the shortage
penalty. -/
def sleep_food (s : State) : State :=
  if requiredFood s ≤ s.inventory.bread then
    let rf := requiredFood s
    appendLog
      { s with
        day := s.day + 1
        strength := s.maxstrength
        inventory := { s.inventory with bread := s.inventory.bread - rf } }
      s!"You consumed {rf} food for your population." Tag.event
  else
    let shortage := requiredFood s - s.inventory.bread
    let happiness_loss := shortage.fdiv 2
    let people_lost := shortage.fdiv 5
    appendLog
      { s with
        day := s.day + 1
        strength := s.maxstrength
        inventory := { s.inventory with bread := 0 }
        happiness := clamp (s.happiness - happiness_loss) 0 100
        people := max 0 (s.people - people_lost) }
      s!"Food Shortage. Lost {people_lost} people, happiness -{happiness_loss}." Tag.warn

/-- Era flavour line of `command_sleep`. -/
def sleep_flavour (s : State) : State :=
  match FLAVOUR.lookup s.currentEra with
  | some t => appendLog s t Tag.muted
  | none => s

/-- Approaching-age warning of `command_sleep`. -/
def sleep_age_warning (s : State) : State :=
  if s.day = s.death_day - 10 ∨ s.day = s.death_day - 5 then
    appendLog s "You feel your age catching up to you..." Tag.muted
  else s

/-- Day-advance core before the death-day check (src/main.tsx lines
427-475): food consumption, then the secondary roll, then the flavour and
age lines. -/
def sleep_daycore (s : State) (g : Rng) : State × Rng :=
  (sleep_age_warning (sleep_flavour (sleep_random_bonus (sleep_food s) g).1),
   (sleep_random_bonus (sleep_food s) g).2)

/-- Universal Tax upkeep (src/main.tsx lines 481-486). -/
def upkeepUT (s : State) (g : Rng) : State × Rng :=
  if (getPolicy s.policies "Universal Tax").active then
    let b := randIn 20 50 g
    let bonus := b.1
    let s1 := { s with money := s.money + bonus, happiness := clamp (s.happiness - 2) 0 100 }
    (appendLog s1 s!"Universal Tax active: +{bonus} coins, -2 happiness." Tag.system, b.2)
  else (s, g)

/-- Charity Relief upkeep (src/main.tsx lines 487-494). -/
def upkeepCharity (s : State) : State :=
  if (getPolicy s.policies "Charity Relief").active ∧ 30 ≤ s.money then
    appendLog { s with money := s.money - 30, happiness := clamp (s.happiness + 4) 0 100 }
      "Charity Relief: -30 coins, +4 happiness." Tag.system
  else s

/-- Royal Festival upkeep (src/main.tsx lines 495-498). -/
def upkeepFestival (s : State) : State :=
  if (getPolicy s.policies "Royal Festival").active ∧ s.day % 5 = 0 then
    appendLog { s with happiness := clamp (s.happiness + 8) 0 100 }
      "Royal Festival held: +8 happiness." Tag.good
  else s

/-- Public Health upkeep (src/main.tsx lines 499-502): 10% chance of a
log-only prevention, otherwise +1 happiness with no log. -/
def upkeepHealth (s : State) (g : Rng) : State × Rng :=
  if (getPolicy s.policies "Public Health").active then
    if (randIn 1 100 g).1 ≤ 10 then
      (appendLog s "Public Health prevented a disease outbreak." Tag.good, (randIn 1 100 g).2)
    else
      ({ s with happiness := clamp (s.happiness + 1) 0 100 }, (randIn 1 100 g).2)
  else (s, g)

/-- Open Borders upkeep (src/main.tsx lines 503-507): 15% chance of
random(2,8) migrants (uncapped). -/
def upkeepBorders (s : State) (g : Rng) : State × Rng :=
  if (getPolicy s.policies "Open Borders").active then
    if (randIn 1 100 g).1 ≤ 15 then
      let infl := randIn 2 8 (randIn 1 100 g).2
      let influx := infl.1
      (appendLog { s with people := s.people + influx }
        s!"Open Borders: +{influx} migrants joined." Tag.good, infl.2)
    else (s, (randIn 1 100 g).2)
  else (s, g)

/-- Electric Welfare upkeep (src/main.tsx lines 508-510): log-only, gated on
the Electric Age. -/
def upkeepWelfare (s : State) (g : Rng) : State × Rng :=
  if (getPolicy s.policies "Electric Welfare").active ∧ s.currentEra = "Electric Age" then
    if (randIn 1 100 g).1 ≤ 20 then
      (appendLog s "Electric Welfare prevented a disaster." Tag.good, (randIn 1 100 g).2)
    else (s, (randIn 1 100 g).2)
  else (s, g)

/-- Policy upkeep section of `command_sleep` (src/main.tsx lines 481-510),
in source order, each policy independently gated on its `active` flag. -/
def sleep_policy_upkeep (s : State) (g : Rng) : State × Rng :=
  let ut := upkeepUT s g
  let phc := upkeepHealth (upkeepFestival (upkeepCharity ut.1)) ut.2
  let ob := upkeepBorders phc.1 phc.2
  upkeepWelfare ob.1 ob.2

/-- The Sleep command (src/main.tsx lines 426-514 / the identical third
variant, part_000 lines 1728-1762): the `set(prev => ...)` updater restores
strength, advances the day, consumes food, runs the secondary
bandit/festival/travellers roll, appends flavour and age lines, then either
logs the death-day line and returns early (skipping policy upkeep) or
applies policy upkeep; `random_event()` is invoked after the updater in both
cases. -/
def command_sleep (s : State) (g : Rng) : State × Rng :=
  if (sleep_daycore s g).1.day ≥ (sleep_daycore s g).1.death_day then
    random_event (appendLog (sleep_daycore s g).1 deathText Tag.danger) (sleep_daycore s g).2
  else
    random_event (sleep_policy_upkeep (sleep_daycore s g).1 (sleep_daycore s g).2).1
      (sleep_policy_upkeep (sleep_daycore s g).1 (sleep_daycore s g).2).2

/-- Combat actions (source union
`'strike'|'block'|'heal'|'dmg_pot'|'lightning'|'sleep'|'poison'`). -/
inductive FightAction where
  | strike | block | heal | dmg_pot | lightning | sleep | poison
  deriving DecidableEq, Repr

/-- The src/main.tsx `updateFightBars` poison tick: while poison turns
remain and the enemy lives, deal 5 damage (floored at 0) and decrement the
counter.  Fight-overlay messages (`fightPush`) write to a DOM node, not to
the Ledger, and are not part of the state. -/
def updateFightBars (s : State) : State :=
  if s.fight.poisonTurns > 0 ∧ s.ehealth > 0 then
    { s with ehealth := max 0 (s.ehealth - 5),
             fight := { s.fight with poisonTurns := s.fight.poisonTurns - 1 } }
  else s

/-- Apply a non-negative player damage value to the enemy (the
`if (pdamage >= 0)` write of `playerAction`). -/
def fightApplyPdamage (pdamage : Int) (s : State) : State :=
  if pdamage ≥ 0 then { s with ehealth := max 0 (s.ehealth - pdamage) } else s

/-- Enemy turn of `playerAction`: a stunned enemy skips its attack and the
flag clears; otherwise it rolls damage, reduced by the magnitude of a block
(negative `pdamage`) and floored at 0.  The check reads the
invocation-start `s.fight.stunned`, which no earlier write of the
invocation touches. -/
def fightEnemyTurn (cfg : EnemyCfg) (pdamage : Int) (s : State) (g : Rng) : State × Rng :=
  if s.fight.stunned then
    ({ s with fight := { s.fight with stunned := false } }, g)
  else
    let raw := randIn cfg.damage_min cfg.damage_max g
    let edmg := if pdamage < 0 then max 0 (raw.1 + pdamage) else raw.1
    ({ s with phealth := max 0 (s.phealth - edmg) }, raw.2)

/-- End-of-turn settlement of src/main.tsx `playerAction`: coins and a win
on enemy death, a loss on player death, nothing otherwise. -/
def fightSettle (cfg : EnemyCfg) (s : State) (g : Rng) : State × Rng :=
  if s.ehealth ≤ 0 ∨ s.phealth ≤ 0 then
    if s.ehealth ≤ 0 then
      let rw := randIn cfg.coins_min cfg.coins_max g
      ({ s with money := s.money + rw.1, wfight := s.wfight + 1 }, rw.2)
    else
      ({ s with lfight := s.lfight + 1 }, g)
  else (s, g)

/-- Non-short-circuiting tail of src/main.tsx `playerAction` (lines
722-755): apply player damage, resolve the enemy turn, tick poison, then
settle.  `stunnedNow` is only ever set on the short-circuiting branches, so
the `if (stunnedNow)` write never fires here. -/
def fightTail (cfg : EnemyCfg) (pdamage : Int) (s : State) (g : Rng) : State × Rng :=
  let et := fightEnemyTurn cfg pdamage (fightApplyPdamage pdamage s) g
  fightSettle cfg (updateFightBars et.1) et.2

/-- src/main.tsx `playerAction` (lines 663-756).  The heal, lightning,
sleep and poison branches apply their potion effect (or nothing when no
potion is left), tick poison via `updateFightBars` and return immediately;
lightning and sleep return before the `stunnedNow` write, so their stun
flag is lost (source behaviour, translated faithfully). -/
def playerActionGo (a : FightAction) (cfg : EnemyCfg) (s : State) (g : Rng) : State × Rng :=
    match a with
    | .strike =>
      fightTail cfg (randIn s.minDmg s.maxDmg g).1 s (randIn s.minDmg s.maxDmg g).2
    | .block =>
      fightTail cfg (-(randIn 10 30 g).1) s (randIn 10 30 g).2
    | .heal =>
      (updateFightBars
        (if s.inventory.hpotion > 0 then
          { s with phealth := 100,
                   inventory := { s.inventory with hpotion := s.inventory.hpotion - 1 } }
         else s), g)
    | .dmg_pot =>
      if s.inventory.dpotion > 0 then
        fightTail cfg ((randIn s.minDmg s.maxDmg g).1 + 10)
          { s with inventory := { s.inventory with dpotion := s.inventory.dpotion - 1 } }
          (randIn s.minDmg s.maxDmg g).2
      else (s, g)
    | .lightning =>
      (updateFightBars
        (if s.inventory.lightning_potion > 0 then
          { s with inventory := { s.inventory with lightning_potion := s.inventory.lightning_potion - 1 } }
         else s), g)
    | .sleep =>
      (updateFightBars
        (if s.inventory.sleep_potion > 0 then
          { s with inventory := { s.inventory with sleep_potion := s.inventory.sleep_potion - 1 } }
         else s), g)
    | .poison =>
      (updateFightBars
        (if s.inventory.poison_potion > 0 then
          { s with fight := { s.fight with poisonTurns := 3 },
                   inventory := { s.inventory with poison_potion := s.inventory.poison_potion - 1 } }
         else s), g)

/-- src/main.tsx `playerAction` (lines 663-756): dispatch on the fight
config, then on the action. -/
def playerAction (a : FightAction) (s : State) (g : Rng) : State × Rng :=
  match s.fight.cfg with
  | none => (s, g)
  | some cfg => playerActionGo a cfg s g

/-- src/main.tsx `startFight`: reset health bars and fight sub-state
(no strength gate in this variant; the record literal carries no `over`
field, which this embedding represents as `over := false`). -/
def startFight (d : Diff) (s : State) : State :=
  { s with ehealth := (ENEMY d).health, phealth := 100,
           fight := { cfg := some (ENEMY d), stunned := false, poisonTurns := 0, over := false } }

/-- part_000 third-variant `updateFightBars` (line 1810): as the main.tsx
one but guarded on a fight config being present. -/
def updateFightBarsV3 (s : State) : State :=
  match s.fight.cfg with
  | none => s
  | some _ =>
    if s.fight.poisonTurns > 0 ∧ s.ehealth > 0 then
      { s with ehealth := max 0 (s.ehealth - 5),
               fight := { s.fight with poisonTurns := s.fight.poisonTurns - 1 } }
    else s

/-- End-of-turn settlement of the part_000 third-variant `playerAction`:
as `fightSettle`, additionally marking the fight over. -/
def fightSettleV3 (cfg : EnemyCfg) (s : State) (g : Rng) : State × Rng :=
  if s.ehealth ≤ 0 ∨ s.phealth ≤ 0 then
    if s.ehealth ≤ 0 then
      let rw := randIn cfg.coins_min cfg.coins_max g
      ({ s with money := s.money + rw.1, wfight := s.wfight + 1,
                fight := { s.fight with over := true } }, rw.2)
    else
      ({ s with lfight := s.lfight + 1, fight := { s.fight with over := true } }, g)
  else (s, g)

/-- Non-short-circuiting tail of the part_000 third-variant `playerAction`
(lines 1825-1841): as `fightTail` but the settlement marks the fight over. -/
def fightTailV3 (cfg : EnemyCfg) (pdamage : Int) (s : State) (g : Rng) : State × Rng :=
  let et := fightEnemyTurn cfg pdamage (fightApplyPdamage pdamage s) g
  fightSettleV3 cfg (updateFightBarsV3 et.1) et.2

/-- part_000 third-variant `playerAction` (lines 1813-1842): as the main.tsx
one, but the invocation returns immediately when no fight is configured or
the fight is already over, and settlement sets `fight.over`. -/
def playerActionGoV3 (a : FightAction) (cfg : EnemyCfg) (s : State) (g : Rng) : State × Rng :=
      match a with
      | .strike =>
        fightTailV3 cfg (randIn s.minDmg s.maxDmg g).1 s (randIn s.minDmg s.maxDmg g).2
      | .block =>
        fightTailV3 cfg (-(randIn 10 30 g).1) s (randIn 10 30 g).2
      | .heal =>
        (updateFightBarsV3
          (if s.inventory.hpotion > 0 then
            { s with phealth := 100,
                     inventory := { s.inventory with hpotion := s.inventory.hpotion - 1 } }
           else s), g)
      | .dmg_pot =>
        if s.inventory.dpotion > 0 then
          fightTailV3 cfg ((randIn s.minDmg s.maxDmg g).1 + 10)
            { s with inventory := { s.inventory with dpotion := s.inventory.dpotion - 1 } }
            (randIn s.minDmg s.maxDmg g).2
        else (s, g)
      | .lightning =>
        (updateFightBarsV3
          (if s.inventory.lightning_potion > 0 then
            { s with inventory := { s.inventory with lightning_potion := s.inventory.lightning_potion - 1 } }
           else s), g)
      | .sleep =>
        (updateFightBarsV3
          (if s.inventory.sleep_potion > 0 then
            { s with inventory := { s.inventory with sleep_potion := s.inventory.sleep_potion - 1 } }
           else s), g)
      | .poison =>
        (updateFightBarsV3
          (if s.inventory.poison_potion > 0 then
            { s with fight := { s.fight with poisonTurns := 3 },
                     inventory := { s.inventory with poison_potion := s.inventory.poison_potion - 1 } }
           else s), g)

/-- part_000 third-variant `playerAction` (lines 1813-1842): returns
immediately when no fight is configured or the fight is already over. -/
def playerActionV3 (a : FightAction) (s : State) (g : Rng) : State × Rng :=
  match s.fight.cfg with
  | none => (s, g)
  | some cfg =>
    if s.fight.over then (s, g)
    else playerActionGoV3 a cfg s g

/-- part_000 third-variant `startFight` (lines 1801-1806): strength gate,
strength consumed, fight sub-state reset with `over := false`. -/
def startFightV3 (d : Diff) (s : State) : State :=
  if s.strength < 1 then
    appendLog s "Too exhausted to fight. Sleep to restore strength." Tag.muted
  else
    { s with strength := s.strength - 1, ehealth := (ENEMY d).health, phealth := 100,
             fight := { cfg := some (ENEMY d), stunned := false, poisonTurns := 0, over := false } }

/-- src/main.tsx `command_tax`. -/
def command_tax (s : State) (g : Rng) : State × Rng :=
  if s.happiness < 1 then
    (appendLog { s with money := 0 }
      "Your people were not happy and left. You became broke." Tag.danger, g)
  else
    let d := randIn 1 5 g
    let m := randIn 25 50 d.2
    let delta := d.1
    let s1 := { s with
      happiness := clamp (s.happiness - delta) 0 100
      money := s.money + m.1
      strength := max 0 (s.strength - 1) }
    (appendLog s1 s!"You taxed the people: happiness -{delta}." Tag.warn, m.2)

/-- src/main.tsx `command_pay`. -/
def command_pay (s : State) : State :=
  if s.people < 1 then
    let nm := s.name
    appendLog { s with money := 0 }
      s!"You have no-one left in {nm}. You became broke and unpopular." Tag.danger
  else
    let s1 := { s with
      money := max 0 (s.money - 5)
      happiness := clamp (s.happiness + 5) 0 100
      strength := max 0 (s.strength - 1) }
    appendLog s1 "You paid the people. Happiness +5." Tag.good

/-- src/main.tsx `command_expand`: era advance with cost doubling,
`ERA_SEQ[number] || prev.currentEra` fallback, maxstrength floor of 4. -/
def command_expand (s : State) : State :=
  if s.number ≥ 6 then
    appendLog s "You are already at the top Age." Tag.muted
  else if s.money < s.exmoney then
    let need := s.exmoney - s.money
    appendLog s s!"You need {need} more coins to expand." Tag.muted
  else
    let number := s.number + 1
    let currentEra := ERA_SEQ.getD number.toNat s.currentEra
    let maxp2 := s.maxpeople * 2
    appendLog
      { s with
        money := s.money - s.exmoney
        exmoney := s.exmoney * 2
        maxpeople := s.maxpeople * 2
        number := number
        currentEra := currentEra
        maxstrength := max s.maxstrength 4
        strength := max 0 (s.strength - 1) }
      s!"You advanced to {currentEra}. Max population is now {maxp2}." Tag.good

/-- Inventory field selectors (the `keyof Inventory` values the shop uses). -/
inductive InvKey where
  | hpotion | dpotion | mpotion | spotion | lightning_potion | sleep_potion | poison_potion
  | bread | meat | fruit | cheese
  deriving DecidableEq, Repr

/-- Read an inventory counter by key. -/
def Inventory.getK (i : Inventory) : InvKey → Int
  | .hpotion => i.hpotion | .dpotion => i.dpotion | .mpotion => i.mpotion
  | .spotion => i.spotion | .lightning_potion => i.lightning_potion
  | .sleep_potion => i.sleep_potion | .poison_potion => i.poison_potion
  | .bread => i.bread | .meat => i.meat | .fruit => i.fruit | .cheese => i.cheese

/-- Write an inventory counter by key. -/
def Inventory.setK (i : Inventory) (k : InvKey) (v : Int) : Inventory :=
  match k with
  | .hpotion => { i with hpotion := v } | .dpotion => { i with dpotion := v }
  | .mpotion => { i with mpotion := v } | .spotion => { i with spotion := v }
  | .lightning_potion => { i with lightning_potion := v }
  | .sleep_potion => { i with sleep_potion := v }
  | .poison_potion => { i with poison_potion := v }
  | .bread => { i with bread := v } | .meat => { i with meat := v }
  | .fruit => { i with fruit := v } | .cheese => { i with cheese := v }

/-- src/main.tsx `buyStack`: buy `qty` units of a potion or food item. -/
def buyStack (key : InvKey) (price qty : Int) (nm : String) (s : State) : State :=
  if qty ≤ 0 then s
  else if s.money < price * qty then appendLog s "Not enough coins." Tag.warn
  else
    appendLog
      { s with
        money := s.money - price * qty
        inventory := s.inventory.setK key (s.inventory.getK key + qty) }
      s!"Purchased {qty} {nm}." Tag.good

/-- src/main.tsx `buyWeapon`: buy a shop weapon if present, unlocked and
affordable; sets the damage range to the weapon's 5/15 base plus its bonus. -/
def buyWeapon (era : EraId) (wid : Int) (s : State) : State :=
  match WEAPONS.find? (fun x => x.era == era && x.id == wid) with
  | none => s
  | some w =>
    if wid ≤ s.owned_weapon.get era then appendLog s "That weapon is locked." Tag.muted
    else if s.money < w.price then appendLog s "Not enough coins." Tag.warn
    else
      let wname := w.name
      let wdmg := w.damage
      let s1 := { s with
        money := s.money - w.price
        owned_weapon := s.owned_weapon.set era wid
        minDmg := 5 + w.damage
        maxDmg := 15 + w.damage
        currentSword := s!"{wname} (+{wdmg} DMG)" }
      appendLog s1 s!"Purchased {wname}." Tag.good

/-- The Policies overlay toggle button: disabled while locked, otherwise
flips `active` and logs.  (The lock gate is the `disabled={data.locked}`
attribute on the source button.) -/
def togglePolicy (nm : String) (s : State) : State :=
  if (getPolicy s.policies nm).locked then s
  else
    appendLog
      { s with policies := setPolicy s.policies nm (fun q => { q with active := !q.active }) }
      (if !(getPolicy s.policies nm).active then s!"{nm} is now ENABLED."
       else s!"{nm} is now DISABLED.") Tag.system

/-- The command alphabet of the simulation core (claim C1's command list;
"buy" covers both the stack shop and the weapon shop). -/
inductive Cmd where
  | sleepCmd
  | tax
  | pay
  | expand
  | stack (key : InvKey) (price qty : Int) (nm : String)
  | weaponBuy (era : EraId) (wid : Int)
  | merchantBuy
  | fightStart (d : Diff)
  | action (a : FightAction)
  | policyToggle (nm : String)

/-- One command applied to the Ledger with an RNG stream. -/
def step : Cmd → State → Rng → State × Rng
  | .sleepCmd, s, g => command_sleep s g
  | .tax, s, g => command_tax s g
  | .pay, s, g => (command_pay s, g)
  | .expand, s, g => (command_expand s, g)
  | .stack k p q nm, s, g => (buyStack k p q nm s, g)
  | .weaponBuy e w, s, g => (buyWeapon e w s, g)
  | .merchantBuy, s, g => (buyMerchant s, g)
  | .fightStart d, s, g => (startFight d s, g)
  | .action a, s, g => playerAction a s g
  | .policyToggle nm, s, g => (togglePolicy nm s, g)

/-- Ledgers reachable from a fresh game through the command layer. -/
inductive Reachable : State → Prop where
  | init (g : Rng) : Reachable (initialState g)
  | next {s : State} (c : Cmd) (g : Rng) : Reachable s → Reachable (step c s g).1

/-- Claim C2's reading of the resolver table: one draw in [1,100],
dispatched by inclusive two-sided ranges into exactly one bucket (this
definition follows the spec's bucket table; the source dispatches through a
cumulative one-sided chain). -/
def random_event_spec (s : State) (g : Rng) : State × Rng :=
  if 1 ≤ (randIn 1 100 g).1 ∧ (randIn 1 100 g).1 ≤ 10 then reProtest s (randIn 1 100 g).2
  else if 11 ≤ (randIn 1 100 g).1 ∧ (randIn 1 100 g).1 ≤ 20 then reRogue s (randIn 1 100 g).2
  else if 21 ≤ (randIn 1 100 g).1 ∧ (randIn 1 100 g).1 ≤ 30 then merchant_event s (randIn 1 100 g).2
  else if 31 ≤ (randIn 1 100 g).1 ∧ (randIn 1 100 g).1 ≤ 40 then reDisaster s (randIn 1 100 g).2
  else if 41 ≤ (randIn 1 100 g).1 ∧ (randIn 1 100 g).1 ≤ 50 then reRoyal s (randIn 1 100 g).2
  else if 51 ≤ (randIn 1 100 g).1 ∧ (randIn 1 100 g).1 ≤ 55 then reRelic s (randIn 1 100 g).2
  else if 56 ≤ (randIn 1 100 g).1 ∧ (randIn 1 100 g).1 ≤ 60 then rePolicyUnlock s (randIn 1 100 g).2
  else if 61 ≤ (randIn 1 100 g).1 ∧ (randIn 1 100 g).1 ≤ 70 then reFestival s (randIn 1 100 g).2
  else if 71 ≤ (randIn 1 100 g).1 ∧ (randIn 1 100 g).1 ≤ 80 then reTreasure s (randIn 1 100 g).2
  else reCalm s (randIn 1 100 g).2

/-- Claim C10's reading of the Sleep command's secondary roll: one draw in
[1,100] with inclusive two-sided bucket ranges (bandits 1-15, festival
16-30, travellers 31-40, no effect 41-100); the source uses a cumulative
one-sided chain. -/
def sleep_random_bonus_spec (next : State) (g : Rng) : State × Rng :=
  if 1 ≤ (randIn 1 100 g).1 ∧ (randIn 1 100 g).1 ≤ 15 then
    let l := randIn 50 200 (randIn 1 100 g).2
    let loss := l.1
    let n2 := { next with money := max 0 (next.money - loss) }
    (appendLog n2 s!"Bandits raided your treasury. Lost {loss} coins." Tag.warn, l.2)
  else if 16 ≤ (randIn 1 100 g).1 ∧ (randIn 1 100 g).1 ≤ 30 then
    let gd := randIn 5 15 (randIn 1 100 g).2
    let gain := gd.1
    let n2 := { next with happiness := clamp (next.happiness + gain) 0 100 }
    (appendLog n2 s!"Festival. Happiness +{gain}." Tag.good, gd.2)
  else if 31 ≤ (randIn 1 100 g).1 ∧ (randIn 1 100 g).1 ≤ 40 then
    let pd := randIn 3 10 (randIn 1 100 g).2
    let p := pd.1
    let n2 := { next with people := min next.maxpeople (next.people + p) }
    (appendLog n2 s!"Travellers joined your kingdom. +{p} population." Tag.good, pd.2)
  else (next, (randIn 1 100 g).2)

/-- The Ledger `command_sleep` hands to the Random Event Resolver: the
day-advance core followed by the death log on the death path, or by policy
upkeep otherwise. -/
def sleepBase (s : State) (g : Rng) : State :=
  if (sleep_daycore s g).1.day ≥ (sleep_daycore s g).1.death_day then
    appendLog (sleep_daycore s g).1 deathText Tag.danger
  else (sleep_policy_upkeep (sleep_daycore s g).1 (sleep_daycore s g).2).1

/-- A concrete mid-game Ledger: ample bread and an unlocked, active
Universal Tax policy, used to exercise the sleep pipeline's ordering. -/
def c3s : State :=
  { initialState [20] with
    death_day := 100
    inventory := { (initialState [20]).inventory with bread := 100 }
    policies := setPolicy initialPolicies "Universal Tax"
      (fun p => { p with locked := false, active := true }) }

/-- A fresh Ledger with every policy already unlocked. -/
def allUnlockedState : State :=
  { initialState [0] with
    policies := initialPolicies.map (fun kp => (kp.1, { kp.2 with locked := false })) }

/-- A sequence of combat actions in the part_000 third variant, threading
the Ledger and the RNG stream. -/
def runActionsV3 (acts : List FightAction) (s : State) (g : Rng) : State × Rng :=
  match acts with
  | [] => (s, g)
  | a :: rest => runActionsV3 rest (playerActionV3 a s g).1 (playerActionV3 a s g).2

/-- A concrete Ledger inside a finished (`over`) fight. -/
def c4over : State :=
  { initialState [0] with
    fight := { cfg := some (ENEMY Diff.EASY), stunned := false, poisonTurns := 0, over := true } }

/-- Modelled from the spec: the JSON value universe targeted by the
platform primitives `JSON.stringify` / `JSON.parse` that the source's
`save`/`load` pair (src/main.tsx lines 268-288) applies to the whole
Ledger.  The primitives themselves are not part of the repository, so the
serializer below follows the spec's description of the save format: the
state object with all nested records, arrays and nullable fields. -/
inductive Json where
  | jnull
  | jbool (b : Bool)
  | jnum (n : Int)
  | jstr (s : String)
  | jarr (xs : List Json)
  | jobj (fields : List (String × Json))

/-- Modelled from the spec: a log tag serializes as its string name. -/
def encodeTag : Tag → Json
  | .event => .jstr "event"
  | .good => .jstr "good"
  | .warn => .jstr "warn"
  | .danger => .jstr "danger"
  | .system => .jstr "system"
  | .merchant => .jstr "merchant"
  | .muted => .jstr "muted"

/-- Inverse of `encodeTag`. -/
def decodeTag : Json → Option Tag
  | .jstr "event" => some .event
  | .jstr "good" => some .good
  | .jstr "warn" => some .warn
  | .jstr "danger" => some .danger
  | .jstr "system" => some .system
  | .jstr "merchant" => some .merchant
  | .jstr "muted" => some .muted
  | _ => none

/-- Modelled from the spec: one log entry `{ text, tag, id }`. -/
def encodeLog (e : LogEntry) : Json :=
  .jobj [("text", .jstr e.text), ("tag", encodeTag e.tag), ("id", .jnum e.id)]

/-- Inverse of `encodeLog`. -/
def decodeLog : Json → Option LogEntry
  | .jobj [("text", .jstr t), ("tag", tg), ("id", .jnum i)] =>
    (decodeTag tg).map (fun tag => { text := t, tag := tag, id := i })
  | _ => none

/-- Modelled from the spec: the inventory record field by field. -/
def encodeInventory (i : Inventory) : Json :=
  .jobj [("hpotion", .jnum i.hpotion), ("dpotion", .jnum i.dpotion), ("mpotion", .jnum i.mpotion),
    ("spotion", .jnum i.spotion), ("lightning_potion", .jnum i.lightning_potion),
    ("sleep_potion", .jnum i.sleep_potion), ("poison_potion", .jnum i.poison_potion),
    ("bread", .jnum i.bread), ("meat", .jnum i.meat), ("fruit", .jnum i.fruit),
    ("cheese", .jnum i.cheese)]

/-- Inverse of `encodeInventory`. -/
def decodeInventory : Json → Option Inventory
  | .jobj [("hpotion", .jnum a1), ("dpotion", .jnum a2), ("mpotion", .jnum a3),
      ("spotion", .jnum a4), ("lightning_potion", .jnum a5), ("sleep_potion", .jnum a6),
      ("poison_potion", .jnum a7), ("bread", .jnum a8), ("meat", .jnum a9),
      ("fruit", .jnum a10), ("cheese", .jnum a11)] =>
    some
      { hpotion := a1
        dpotion := a2
        mpotion := a3
        spotion := a4
        lightning_potion := a5
        sleep_potion := a6
        poison_potion := a7
        bread := a8
        meat := a9
        fruit := a10
        cheese := a11 }
  | _ => none

/-- Modelled from the spec: a policy record `{ locked, active, desc }`. -/
def encodePolicy (p : Policy) : Json :=
  .jobj [("locked", .jbool p.locked), ("active", .jbool p.active), ("desc", .jstr p.desc)]

/-- Inverse of `encodePolicy`. -/
def decodePolicy : Json → Option Policy
  | .jobj [("locked", .jbool l), ("active", .jbool a), ("desc", .jstr d)] =>
    some { locked := l, active := a, desc := d }
  | _ => none

/-- Decode a JSON boolean. -/
def decodeBool : Json → Option Bool
  | .jbool b => some b
  | _ => none

/-- Decode a JSON string. -/
def decodeStr : Json → Option String
  | .jstr s => some s
  | _ => none

/-- Modelled from the spec: a string-keyed record serialized entry-wise. -/
def encodeKV (enc : α → Json) (l : List (String × α)) : Json :=
  .jobj (l.map (fun kp => (kp.1, enc kp.2)))

/-- Decode the entries of a string-keyed record. -/
def decodeKVList (d : Json → Option α) : List (String × Json) → Option (List (String × α))
  | [] => some []
  | (k, v) :: rest =>
    match d v, decodeKVList d rest with
    | some a, some r => some ((k, a) :: r)
    | _, _ => none

/-- Inverse of `encodeKV`. -/
def decodeKV (d : Json → Option α) : Json → Option (List (String × α))
  | .jobj fs => decodeKVList d fs
  | _ => none

/-- Decode a JSON array element-wise. -/
def decodeList (d : Json → Option α) : List Json → Option (List α)
  | [] => some []
  | x :: xs =>
    match d x, decodeList d xs with
    | some a, some r => some (a :: r)
    | _, _ => none

/-- Modelled from the spec: the per-era owned-weapon record. -/
def encodeOwned (o : Owned) : Json :=
  .jobj [("Stone Age", .jnum o.w1), ("Bronze Age", .jnum o.w2), ("Iron Age", .jnum o.w3),
    ("Roman Age", .jnum o.w4), ("Medievil Age", .jnum o.w5), ("Electric Age", .jnum o.w6),
    ("Modern Age", .jnum o.w7)]

/-- Inverse of `encodeOwned`. -/
def decodeOwned : Json → Option Owned
  | .jobj [("Stone Age", .jnum a1), ("Bronze Age", .jnum a2), ("Iron Age", .jnum a3),
      ("Roman Age", .jnum a4), ("Medievil Age", .jnum a5), ("Electric Age", .jnum a6),
      ("Modern Age", .jnum a7)] =>
    some { w1 := a1, w2 := a2, w3 := a3, w4 := a4, w5 := a5, w6 := a6, w7 := a7 }
  | _ => none

/-- Modelled from the spec: an enemy configuration record. -/
def encodeCfg (c : EnemyCfg) : Json :=
  .jobj [("health", .jnum c.health), ("damage_min", .jnum c.damage_min),
    ("damage_max", .jnum c.damage_max), ("coins_min", .jnum c.coins_min),
    ("coins_max", .jnum c.coins_max)]

/-- Inverse of `encodeCfg`. -/
def decodeCfg : Json → Option EnemyCfg
  | .jobj [("health", .jnum h), ("damage_min", .jnum dmin), ("damage_max", .jnum dmax),
      ("coins_min", .jnum cmin), ("coins_max", .jnum cmax)] =>
    some
      { health := h
        damage_min := dmin
        damage_max := dmax
        coins_min := cmin
        coins_max := cmax }
  | _ => none

/-- Modelled from the spec: a nullable field serializes as `null` or the
value. -/
def encodeOpt (enc : α → Json) : Option α → Json
  | none => .jnull
  | some a => enc a

/-- Inverse of `encodeOpt`. -/
def decodeOpt (d : Json → Option α) : Json → Option (Option α)
  | .jnull => some none
  | j => (d j).map some

/-- Modelled from the spec: a unique offer's effect field
(`"happiness" | "maxstrength" | null`). -/
def encodeEff : Option UEffect → Json
  | none => .jnull
  | some .happiness => .jstr "happiness"
  | some .maxstrength => .jstr "maxstrength"

/-- Inverse of `encodeEff`. -/
def decodeEff : Json → Option (Option UEffect)
  | .jnull => some none
  | .jstr "happiness" => some (some .happiness)
  | .jstr "maxstrength" => some (some .maxstrength)
  | _ => none

/-- Modelled from the spec: a pending merchant offer, discriminated by its
`kind` field as in the source union type. -/
def encodeOffer : MerchantOffer → Json
  | .weapon n b p =>
    .jobj [("kind", .jstr "weapon"), ("name", .jstr n), ("bonus", .jnum b), ("price", .jnum p)]
  | .unique n e v p =>
    .jobj [("kind", .jstr "unique"), ("name", .jstr n), ("effect", encodeEff e),
      ("value", .jnum v), ("price", .jnum p)]

/-- Inverse of `encodeOffer`. -/
def decodeOffer : Json → Option MerchantOffer
  | .jobj [("kind", .jstr "weapon"), ("name", .jstr n), ("bonus", .jnum b), ("price", .jnum p)] =>
    some (.weapon n b p)
  | .jobj [("kind", .jstr "unique"), ("name", .jstr n), ("effect", je), ("value", .jnum v),
      ("price", .jnum p)] =>
    (decodeEff je).map (fun e => .unique n e v p)
  | _ => none

/-- Modelled from the spec: the fight sub-state record. -/
def encodeFight (f : FightState) : Json :=
  .jobj [("cfg", encodeOpt encodeCfg f.cfg), ("stunned", .jbool f.stunned),
    ("poisonTurns", .jnum f.poisonTurns), ("over", .jbool f.over)]

/-- Inverse of `encodeFight`. -/
def decodeFight : Json → Option FightState
  | .jobj [("cfg", jc), ("stunned", .jbool st), ("poisonTurns", .jnum pt),
      ("over", .jbool ov)] =>
    (decodeOpt decodeCfg jc).map
      (fun c => { cfg := c, stunned := st, poisonTurns := pt, over := ov })
  | _ => none

/-- Modelled from the spec: `JSON.stringify` of the whole Ledger, field by
field in declaration order. -/
def encodeState (s : State) : Json :=
  .jobj [("name", .jstr s.name), ("day", .jnum s.day), ("death_day", .jnum s.death_day),
    ("money", .jnum s.money), ("exmoney", .jnum s.exmoney), ("pmoney", .jnum s.pmoney),
    ("people", .jnum s.people), ("maxpeople", .jnum s.maxpeople),
    ("happiness", .jnum s.happiness), ("phealth", .jnum s.phealth),
    ("maxphealth", .jnum s.maxphealth), ("strength", .jnum s.strength),
    ("maxstrength", .jnum s.maxstrength), ("ehealth", .jnum s.ehealth),
    ("inventory", encodeInventory s.inventory), ("currentEra", .jstr s.currentEra),
    ("currentSword", .jstr s.currentSword), ("minDmg", .jnum s.minDmg),
    ("maxDmg", .jnum s.maxDmg), ("wfight", .jnum s.wfight), ("lfight", .jnum s.lfight),
    ("merchant_relationship", .jnum s.merchant_relationship),
    ("merchant_weapon_log", encodeKV (fun b => Json.jbool b) s.merchant_weapon_log),
    ("last_merchant_offer_type", encodeOpt Json.jstr s.last_merchant_offer_type),
    ("number", .jnum s.number), ("owned_weapon", encodeOwned s.owned_weapon),
    ("policies", encodeKV encodePolicy s.policies),
    ("logs", .jarr (s.logs.map encodeLog)),
    ("pendingMerchant", encodeOpt encodeOffer s.pendingMerchant),
    ("fight", encodeFight s.fight)]

/-- Modelled from the spec: `JSON.parse` back into a Ledger, refusing any
shape mismatch. -/
def decodeState : Json → Option State
  | .jobj [("name", .jstr name), ("day", .jnum day), ("death_day", .jnum death_day),
      ("money", .jnum money), ("exmoney", .jnum exmoney), ("pmoney", .jnum pmoney),
      ("people", .jnum people), ("maxpeople", .jnum maxpeople),
      ("happiness", .jnum happiness), ("phealth", .jnum phealth),
      ("maxphealth", .jnum maxphealth), ("strength", .jnum strength),
      ("maxstrength", .jnum maxstrength), ("ehealth", .jnum ehealth),
      ("inventory", jinv), ("currentEra", .jstr currentEra),
      ("currentSword", .jstr currentSword), ("minDmg", .jnum minDmg),
      ("maxDmg", .jnum maxDmg), ("wfight", .jnum wfight), ("lfight", .jnum lfight),
      ("merchant_relationship", .jnum mrel), ("merchant_weapon_log", jwl),
      ("last_merchant_offer_type", jlast), ("number", .jnum number),
      ("owned_weapon", jow), ("policies", jpol), ("logs", .jarr jlogs),
      ("pendingMerchant", jpm), ("fight", jf)] =>
    match decodeInventory jinv, decodeKV decodeBool jwl, decodeOpt decodeStr jlast,
        decodeOwned jow, decodeKV decodePolicy jpol, decodeList decodeLog jlogs,
        decodeOpt decodeOffer jpm, decodeFight jf with
    | some inv, some wl, some lastT, some ow, some pol, some logs, some pm, some f =>
      some
        { name := name
          day := day
          death_day := death_day
          money := money
          exmoney := exmoney
          pmoney := pmoney
          people := people
          maxpeople := maxpeople
          happiness := happiness
          phealth := phealth
          maxphealth := maxphealth
          strength := strength
          maxstrength := maxstrength
          ehealth := ehealth
          inventory := inv
          currentEra := currentEra
          currentSword := currentSword
          minDmg := minDmg
          maxDmg := maxDmg
          wfight := wfight
          lfight := lfight
          merchant_relationship := mrel
          merchant_weapon_log := wl
          last_merchant_offer_type := lastT
          number := number
          owned_weapon := ow
          policies := pol
          logs := logs
          pendingMerchant := pm
          fight := f }
    | _, _, _, _, _, _, _, _ => none
  | _ => none

/-- Lower clamp bound. -/
theorem clamp_lb (v lo hi : Int) : lo ≤ clamp v lo hi := le_max_left lo _

/-- Upper clamp bound. -/
theorem clamp_ub (v lo hi : Int) (h : lo ≤ hi) : clamp v lo hi ≤ hi :=
  max_le h (min_le_left hi v)

/-- A bounded draw is at least its lower bound. -/
theorem randIn_lb (a b : Int) (g : Rng) : a ≤ (randIn a b g).1 := by
  show a ≤ a + (((draw g).1 % (b - a + 1).toNat : Nat) : Int)
  omega

/-- A bounded draw with a nonempty range is at most its upper bound. -/
theorem randIn_ub (a b : Int) (g : Rng) (h : a ≤ b) : (randIn a b g).1 ≤ b := by
  show a + (((draw g).1 % (b - a + 1).toNat : Nat) : Int) ≤ b
  have hpos : 0 < (b - a + 1).toNat := by omega
  have h1 : (draw g).1 % (b - a + 1).toNat < (b - a + 1).toNat := Nat.mod_lt _ hpos
  omega

/-- The numeric bounds asserted by claim C1 (with the enemy-health bound
amended from 100 to 300, the largest enemy max health). -/
def ClaimInv (s : State) : Prop :=
  0 ≤ s.happiness ∧ s.happiness ≤ 100 ∧
  0 ≤ s.phealth ∧ s.phealth ≤ 100 ∧
  0 ≤ s.ehealth ∧ s.ehealth ≤ 300 ∧
  0 ≤ s.inventory.hpotion ∧ 0 ≤ s.inventory.dpotion ∧ 0 ≤ s.inventory.mpotion ∧
  0 ≤ s.inventory.spotion ∧ 0 ≤ s.inventory.lightning_potion ∧
  0 ≤ s.inventory.sleep_potion ∧ 0 ≤ s.inventory.poison_potion ∧
  0 ≤ s.inventory.bread ∧ 0 ≤ s.inventory.meat ∧ 0 ≤ s.inventory.fruit ∧
  0 ≤ s.inventory.cheese ∧
  s.strength ≤ s.maxstrength ∧ 0 ≤ s.people

/-- Auxiliary facts needed to make `ClaimInv` inductive over the command
layer: nonnegative capacity fields and a nonnegative enemy damage floor. -/
def AuxInv (s : State) : Prop :=
  0 ≤ s.maxstrength ∧ 0 ≤ s.maxpeople ∧
  (∀ c, s.fight.cfg = some c → 0 ≤ c.damage_min)

/-- The inductive invariant: claim bounds plus auxiliary facts. -/
def FullInv (s : State) : Prop := ClaimInv s ∧ AuxInv s

/-- `appendLog` touches only the log, so it preserves the invariant. -/
theorem FullInv_appendLog (s : State) (t : String) (tag : Tag) (h : FullInv s) :
    FullInv (appendLog s t tag) := h

/-- The invariant transfers between states that agree on every tracked
field. -/
theorem FullInv_stable (s s' : State)
    (hh : s'.happiness = s.happiness) (hph : s'.phealth = s.phealth)
    (heh : s'.ehealth = s.ehealth) (hin : s'.inventory = s.inventory)
    (hst : s'.strength = s.strength) (hms : s'.maxstrength = s.maxstrength)
    (hpe : s'.people = s.people) (hmp : s'.maxpeople = s.maxpeople)
    (hfc : s'.fight.cfg = s.fight.cfg) (h : FullInv s) : FullInv s' := by
  unfold FullInv ClaimInv AuxInv at h ⊢
  rw [hh, hph, heh, hin, hst, hms, hpe, hmp, hfc]
  exact h

/-- `merchant_event` touches only the log, the pending offer and the
last-offer-type marker, so it preserves the invariant. -/
theorem FullInv_merchant_event (s : State) (g : Rng) (h : FullInv s) :
    FullInv (merchant_event s g).1 := by
  unfold merchant_event
  split
  · exact FullInv_stable s _ rfl rfl rfl rfl rfl rfl rfl rfl rfl h
  · exact FullInv_stable s _ rfl rfl rfl rfl rfl rfl rfl rfl rfl h

/-- Protest bucket preserves the invariant: money floors at 0, happiness is
clamped, other tracked fields are untouched. -/
theorem FullInv_reProtest (s : State) (g : Rng) (h : FullInv s) : FullInv (reProtest s g).1 := by
  unfold FullInv ClaimInv AuxInv at h ⊢
  obtain ⟨⟨h1, h2, h3, h4, h5, h6, i1, i2, i3, i4, i5, i6, i7, i8, i9, i10, i11, hs, hp⟩, a1, a2, a3⟩ := h
  refine ⟨⟨?_, ?_, ?_, ?_, ?_, ?_, ?_, ?_, ?_, ?_, ?_, ?_, ?_, ?_, ?_, ?_, ?_, ?_, ?_⟩, ?_, ?_, ?_⟩
  all_goals dsimp only [reProtest, appendLog]
  all_goals first
    | assumption
    | exact clamp_lb _ _ _
    | exact clamp_ub _ _ _ (by omega)
    | exact le_max_left 0 _

/-- Rogue bucket preserves the invariant. -/
theorem FullInv_reRogue (s : State) (g : Rng) (h : FullInv s) : FullInv (reRogue s g).1 := by
  unfold reRogue
  split
  · exact FullInv_stable s _ rfl rfl rfl rfl rfl rfl rfl rfl rfl h
  · unfold FullInv ClaimInv AuxInv at h ⊢
    obtain ⟨⟨h1, h2, h3, h4, h5, h6, i1, i2, i3, i4, i5, i6, i7, i8, i9, i10, i11, hs, hp⟩, a1, a2, a3⟩ := h
    refine ⟨⟨?_, ?_, ?_, ?_, ?_, ?_, ?_, ?_, ?_, ?_, ?_, ?_, ?_, ?_, ?_, ?_, ?_, ?_, ?_⟩, ?_, ?_, ?_⟩
    all_goals dsimp only [appendLog]
    all_goals first
      | assumption
      | exact clamp_lb _ _ _
      | exact clamp_ub _ _ _ (by omega)
      | exact le_max_left 0 _

/-- Disaster bucket preserves the invariant. -/
theorem FullInv_reDisaster (s : State) (g : Rng) (h : FullInv s) : FullInv (reDisaster s g).1 := by
  unfold reDisaster
  split
  all_goals
    unfold FullInv ClaimInv AuxInv at h ⊢
    obtain ⟨⟨h1, h2, h3, h4, h5, h6, i1, i2, i3, i4, i5, i6, i7, i8, i9, i10, i11, hs, hp⟩, a1, a2, a3⟩ := h
    refine ⟨⟨?_, ?_, ?_, ?_, ?_, ?_, ?_, ?_, ?_, ?_, ?_, ?_, ?_, ?_, ?_, ?_, ?_, ?_, ?_⟩, ?_, ?_, ?_⟩
  all_goals dsimp only [appendLog]
  all_goals first
    | assumption
    | exact clamp_lb _ _ _
    | exact clamp_ub _ _ _ (by omega)
    | exact le_max_left 0 _

/-- Royal bucket preserves the invariant. -/
theorem FullInv_reRoyal (s : State) (g : Rng) (h : FullInv s) : FullInv (reRoyal s g).1 := by
  unfold FullInv ClaimInv AuxInv at h ⊢
  obtain ⟨⟨h1, h2, h3, h4, h5, h6, i1, i2, i3, i4, i5, i6, i7, i8, i9, i10, i11, hs, hp⟩, a1, a2, a3⟩ := h
  refine ⟨⟨?_, ?_, ?_, ?_, ?_, ?_, ?_, ?_, ?_, ?_, ?_, ?_, ?_, ?_, ?_, ?_, ?_, ?_, ?_⟩, ?_, ?_, ?_⟩
  all_goals dsimp only [reRoyal, appendLog]
  all_goals first
    | assumption
    | exact clamp_lb _ _ _
    | exact clamp_ub _ _ _ (by omega)
    | exact le_max_left 0 _

/-- Relic bucket preserves the invariant. -/
theorem FullInv_reRelic (s : State) (g : Rng) (h : FullInv s) : FullInv (reRelic s g).1 := by
  unfold reRelic
  split
  all_goals
    unfold FullInv ClaimInv AuxInv at h ⊢
    obtain ⟨⟨h1, h2, h3, h4, h5, h6, i1, i2, i3, i4, i5, i6, i7, i8, i9, i10, i11, hs, hp⟩, a1, a2, a3⟩ := h
    refine ⟨⟨?_, ?_, ?_, ?_, ?_, ?_, ?_, ?_, ?_, ?_, ?_, ?_, ?_, ?_, ?_, ?_, ?_, ?_, ?_⟩, ?_, ?_, ?_⟩
  all_goals dsimp only [appendLog]
  all_goals first
    | assumption
    | exact clamp_lb _ _ _
    | exact clamp_ub _ _ _ (by omega)
    | exact le_max_left 0 _

/-- Policy-unlock bucket preserves the invariant (it only touches policies
and the log). -/
theorem FullInv_rePolicyUnlock (s : State) (g : Rng) (h : FullInv s) :
    FullInv (rePolicyUnlock s g).1 := by
  unfold rePolicyUnlock
  split
  · exact FullInv_stable s _ rfl rfl rfl rfl rfl rfl rfl rfl rfl h
  · exact h

/-- Festival bucket preserves the invariant. -/
theorem FullInv_reFestival (s : State) (g : Rng) (h : FullInv s) : FullInv (reFestival s g).1 := by
  unfold FullInv ClaimInv AuxInv at h ⊢
  obtain ⟨⟨h1, h2, h3, h4, h5, h6, i1, i2, i3, i4, i5, i6, i7, i8, i9, i10, i11, hs, hp⟩, a1, a2, a3⟩ := h
  refine ⟨⟨?_, ?_, ?_, ?_, ?_, ?_, ?_, ?_, ?_, ?_, ?_, ?_, ?_, ?_, ?_, ?_, ?_, ?_, ?_⟩, ?_, ?_, ?_⟩
  all_goals dsimp only [reFestival, appendLog]
  all_goals first
    | assumption
    | exact clamp_lb _ _ _
    | exact clamp_ub _ _ _ (by omega)
    | exact le_max_left 0 _

/-- Treasure bucket preserves the invariant (only money and the log). -/
theorem FullInv_reTreasure (s : State) (g : Rng) (h : FullInv s) : FullInv (reTreasure s g).1 :=
  FullInv_stable s _ rfl rfl rfl rfl rfl rfl rfl rfl rfl h

/-- Calm bucket preserves the invariant (log only). -/
theorem FullInv_reCalm (s : State) (g : Rng) (h : FullInv s) : FullInv (reCalm s g).1 := h

/-- The Random Event Resolver preserves the invariant for every state and
RNG stream. -/
theorem FullInv_random_event (s : State) (g : Rng) (h : FullInv s) :
    FullInv (random_event s g).1 := by
  unfold random_event
  split
  · exact FullInv_reProtest s _ h
  split
  · exact FullInv_reRogue s _ h
  split
  · exact FullInv_merchant_event s _ h
  split
  · exact FullInv_reDisaster s _ h
  split
  · exact FullInv_reRoyal s _ h
  split
  · exact FullInv_reRelic s _ h
  split
  · exact FullInv_rePolicyUnlock s _ h
  split
  · exact FullInv_reFestival s _ h
  split
  · exact FullInv_reTreasure s _ h
  · exact FullInv_reCalm s _ h

/-- Food consumption preserves the invariant: bread stays nonnegative in
both branches, happiness is clamped and people floored on a shortage, and
strength is restored to `maxstrength`. -/
theorem FullInv_sleep_food (s : State) (h : FullInv s) : FullInv (sleep_food s) := by
  unfold sleep_food
  split
  all_goals
    unfold FullInv ClaimInv AuxInv at h ⊢
    obtain ⟨⟨h1, h2, h3, h4, h5, h6, i1, i2, i3, i4, i5, i6, i7, i8, i9, i10, i11, hs, hp⟩, a1, a2, a3⟩ := h
    refine ⟨⟨?_, ?_, ?_, ?_, ?_, ?_, ?_, ?_, ?_, ?_, ?_, ?_, ?_, ?_, ?_, ?_, ?_, ?_, ?_⟩, ?_, ?_, ?_⟩
  all_goals dsimp only [appendLog]
  all_goals first
    | assumption
    | exact clamp_lb _ _ _
    | exact clamp_ub _ _ _ (by omega)
    | exact le_max_left 0 _
    | omega

/-- The secondary bandit/festival/travellers roll preserves the invariant. -/
theorem FullInv_sleep_random_bonus (s : State) (g : Rng) (h : FullInv s) :
    FullInv (sleep_random_bonus s g).1 := by
  unfold sleep_random_bonus
  split
  · exact FullInv_stable s _ rfl rfl rfl rfl rfl rfl rfl rfl rfl h
  split
  · unfold FullInv ClaimInv AuxInv at h ⊢
    obtain ⟨⟨h1, h2, h3, h4, h5, h6, i1, i2, i3, i4, i5, i6, i7, i8, i9, i10, i11, hs, hp⟩, a1, a2, a3⟩ := h
    refine ⟨⟨?_, ?_, ?_, ?_, ?_, ?_, ?_, ?_, ?_, ?_, ?_, ?_, ?_, ?_, ?_, ?_, ?_, ?_, ?_⟩, ?_, ?_, ?_⟩
    all_goals dsimp only [appendLog]
    all_goals first
      | assumption
      | exact clamp_lb _ _ _
      | exact clamp_ub _ _ _ (by omega)
  split
  · have hb := randIn_lb 3 10 (randIn 1 100 g).2
    unfold FullInv ClaimInv AuxInv at h ⊢
    obtain ⟨⟨h1, h2, h3, h4, h5, h6, i1, i2, i3, i4, i5, i6, i7, i8, i9, i10, i11, hs, hp⟩, a1, a2, a3⟩ := h
    refine ⟨⟨?_, ?_, ?_, ?_, ?_, ?_, ?_, ?_, ?_, ?_, ?_, ?_, ?_, ?_, ?_, ?_, ?_, ?_, ?_⟩, ?_, ?_, ?_⟩
    all_goals dsimp only [appendLog]
    all_goals first
      | assumption
      | exact le_min a2 (by omega)
  · exact h

/-- The era flavour line preserves the invariant. -/
theorem FullInv_sleep_flavour (s : State) (h : FullInv s) : FullInv (sleep_flavour s) := by
  unfold sleep_flavour
  split
  · exact h
  · exact h

/-- The age warning preserves the invariant. -/
theorem FullInv_sleep_age_warning (s : State) (h : FullInv s) : FullInv (sleep_age_warning s) := by
  unfold sleep_age_warning
  split
  · exact h
  · exact h

/-- The full day-advance core preserves the invariant. -/
theorem FullInv_sleep_daycore (s : State) (g : Rng) (h : FullInv s) :
    FullInv (sleep_daycore s g).1 :=
  FullInv_sleep_age_warning _
    (FullInv_sleep_flavour _ (FullInv_sleep_random_bonus (sleep_food s) g (FullInv_sleep_food s h)))

/-- Universal Tax upkeep preserves the invariant. -/
theorem FullInv_upkeepUT (s : State) (g : Rng) (h : FullInv s) : FullInv (upkeepUT s g).1 := by
  unfold upkeepUT
  split
  · unfold FullInv ClaimInv AuxInv at h ⊢
    obtain ⟨⟨h1, h2, h3, h4, h5, h6, i1, i2, i3, i4, i5, i6, i7, i8, i9, i10, i11, hs, hp⟩, a1, a2, a3⟩ := h
    refine ⟨⟨?_, ?_, ?_, ?_, ?_, ?_, ?_, ?_, ?_, ?_, ?_, ?_, ?_, ?_, ?_, ?_, ?_, ?_, ?_⟩, ?_, ?_, ?_⟩
    all_goals dsimp only [appendLog]
    all_goals first
      | assumption
      | exact clamp_lb _ _ _
      | exact clamp_ub _ _ _ (by omega)
  · exact h

/-- Charity Relief upkeep preserves the invariant. -/
theorem FullInv_upkeepCharity (s : State) (h : FullInv s) : FullInv (upkeepCharity s) := by
  unfold upkeepCharity
  split
  · unfold FullInv ClaimInv AuxInv at h ⊢
    obtain ⟨⟨h1, h2, h3, h4, h5, h6, i1, i2, i3, i4, i5, i6, i7, i8, i9, i10, i11, hs, hp⟩, a1, a2, a3⟩ := h
    refine ⟨⟨?_, ?_, ?_, ?_, ?_, ?_, ?_, ?_, ?_, ?_, ?_, ?_, ?_, ?_, ?_, ?_, ?_, ?_, ?_⟩, ?_, ?_, ?_⟩
    all_goals dsimp only [appendLog]
    all_goals first
      | assumption
      | exact clamp_lb _ _ _
      | exact clamp_ub _ _ _ (by omega)
  · exact h

/-- Royal Festival upkeep preserves the invariant. -/
theorem FullInv_upkeepFestival (s : State) (h : FullInv s) : FullInv (upkeepFestival s) := by
  unfold upkeepFestival
  split
  · unfold FullInv ClaimInv AuxInv at h ⊢
    obtain ⟨⟨h1, h2, h3, h4, h5, h6, i1, i2, i3, i4, i5, i6, i7, i8, i9, i10, i11, hs, hp⟩, a1, a2, a3⟩ := h
    refine ⟨⟨?_, ?_, ?_, ?_, ?_, ?_, ?_, ?_, ?_, ?_, ?_, ?_, ?_, ?_, ?_, ?_, ?_, ?_, ?_⟩, ?_, ?_, ?_⟩
    all_goals dsimp only [appendLog]
    all_goals first
      | assumption
      | exact clamp_lb _ _ _
      | exact clamp_ub _ _ _ (by omega)
  · exact h

/-- Public Health upkeep preserves the invariant. -/
theorem FullInv_upkeepHealth (s : State) (g : Rng) (h : FullInv s) : FullInv (upkeepHealth s g).1 := by
  unfold upkeepHealth
  split
  · split
    · exact h
    · unfold FullInv ClaimInv AuxInv at h ⊢
      obtain ⟨⟨h1, h2, h3, h4, h5, h6, i1, i2, i3, i4, i5, i6, i7, i8, i9, i10, i11, hs, hp⟩, a1, a2, a3⟩ := h
      refine ⟨⟨?_, ?_, ?_, ?_, ?_, ?_, ?_, ?_, ?_, ?_, ?_, ?_, ?_, ?_, ?_, ?_, ?_, ?_, ?_⟩, ?_, ?_, ?_⟩
      all_goals dsimp only []
      all_goals first
        | assumption
        | exact clamp_lb _ _ _
        | exact clamp_ub _ _ _ (by omega)
  · exact h

/-- Open Borders upkeep preserves the invariant (people only grows). -/
theorem FullInv_upkeepBorders (s : State) (g : Rng) (h : FullInv s) : FullInv (upkeepBorders s g).1 := by
  unfold upkeepBorders
  split
  · split
    · have hb := randIn_lb 2 8 (randIn 1 100 g).2
      unfold FullInv ClaimInv AuxInv at h ⊢
      obtain ⟨⟨h1, h2, h3, h4, h5, h6, i1, i2, i3, i4, i5, i6, i7, i8, i9, i10, i11, hs, hp⟩, a1, a2, a3⟩ := h
      refine ⟨⟨?_, ?_, ?_, ?_, ?_, ?_, ?_, ?_, ?_, ?_, ?_, ?_, ?_, ?_, ?_, ?_, ?_, ?_, ?_⟩, ?_, ?_, ?_⟩
      all_goals dsimp only [appendLog]
      all_goals first
        | assumption
        | omega
    · exact h
  · exact h

/-- Electric Welfare upkeep preserves the invariant (log only). -/
theorem FullInv_upkeepWelfare (s : State) (g : Rng) (h : FullInv s) : FullInv (upkeepWelfare s g).1 := by
  unfold upkeepWelfare
  split
  · split
    · exact h
    · exact h
  · exact h

/-- The full policy upkeep preserves the invariant. -/
theorem FullInv_sleep_policy_upkeep (s : State) (g : Rng) (h : FullInv s) :
    FullInv (sleep_policy_upkeep s g).1 :=
  FullInv_upkeepWelfare _ _
    (FullInv_upkeepBorders _ _
      (FullInv_upkeepHealth _ _
        (FullInv_upkeepFestival _ (FullInv_upkeepCharity _ (FullInv_upkeepUT s g h)))))

/-- The Sleep command preserves the invariant. -/
theorem FullInv_command_sleep (s : State) (g : Rng) (h : FullInv s) :
    FullInv (command_sleep s g).1 := by
  unfold command_sleep
  split
  · exact FullInv_random_event _ _ (FullInv_appendLog _ _ _ (FullInv_sleep_daycore s g h))
  · exact FullInv_random_event _ _ (FullInv_sleep_policy_upkeep _ _ (FullInv_sleep_daycore s g h))

/-- Tax preserves the invariant. -/
theorem FullInv_command_tax (s : State) (g : Rng) (h : FullInv s) : FullInv (command_tax s g).1 := by
  unfold command_tax
  split
  · exact FullInv_stable s _ rfl rfl rfl rfl rfl rfl rfl rfl rfl h
  · unfold FullInv ClaimInv AuxInv at h ⊢
    obtain ⟨⟨h1, h2, h3, h4, h5, h6, i1, i2, i3, i4, i5, i6, i7, i8, i9, i10, i11, hs, hp⟩, a1, a2, a3⟩ := h
    refine ⟨⟨?_, ?_, ?_, ?_, ?_, ?_, ?_, ?_, ?_, ?_, ?_, ?_, ?_, ?_, ?_, ?_, ?_, ?_, ?_⟩, ?_, ?_, ?_⟩
    all_goals dsimp only [appendLog]
    all_goals first
      | assumption
      | exact clamp_lb _ _ _
      | exact clamp_ub _ _ _ (by omega)
      | exact max_le (by omega) (by omega)

/-- Pay preserves the invariant. -/
theorem FullInv_command_pay (s : State) (h : FullInv s) : FullInv (command_pay s) := by
  unfold command_pay
  split
  · exact FullInv_stable s _ rfl rfl rfl rfl rfl rfl rfl rfl rfl h
  · unfold FullInv ClaimInv AuxInv at h ⊢
    obtain ⟨⟨h1, h2, h3, h4, h5, h6, i1, i2, i3, i4, i5, i6, i7, i8, i9, i10, i11, hs, hp⟩, a1, a2, a3⟩ := h
    refine ⟨⟨?_, ?_, ?_, ?_, ?_, ?_, ?_, ?_, ?_, ?_, ?_, ?_, ?_, ?_, ?_, ?_, ?_, ?_, ?_⟩, ?_, ?_, ?_⟩
    all_goals dsimp only [appendLog]
    all_goals first
      | assumption
      | exact clamp_lb _ _ _
      | exact clamp_ub _ _ _ (by omega)
      | exact max_le (by omega) (by omega)

/-- Expand preserves the invariant. -/
theorem FullInv_command_expand (s : State) (h : FullInv s) : FullInv (command_expand s) := by
  unfold command_expand
  split
  · exact h
  split
  · exact h
  · unfold FullInv ClaimInv AuxInv at h ⊢
    obtain ⟨⟨h1, h2, h3, h4, h5, h6, i1, i2, i3, i4, i5, i6, i7, i8, i9, i10, i11, hs, hp⟩, a1, a2, a3⟩ := h
    refine ⟨⟨?_, ?_, ?_, ?_, ?_, ?_, ?_, ?_, ?_, ?_, ?_, ?_, ?_, ?_, ?_, ?_, ?_, ?_, ?_⟩, ?_, ?_, ?_⟩
    all_goals dsimp only [appendLog]
    all_goals first
      | assumption
      | exact max_le (le_max_of_le_right (by omega)) (le_max_of_le_left (by omega))
      | exact le_max_of_le_right (by omega)
      | omega

/-- Buying a stack of potions or food preserves the invariant. -/
theorem FullInv_buyStack (k : InvKey) (p q : Int) (nm : String) (s : State) (h : FullInv s) :
    FullInv (buyStack k p q nm s) := by
  unfold buyStack
  split
  · exact h
  split
  · exact FullInv_appendLog _ _ _ h
  · cases k
    all_goals
      unfold FullInv ClaimInv AuxInv at h ⊢
      obtain ⟨⟨h1, h2, h3, h4, h5, h6, i1, i2, i3, i4, i5, i6, i7, i8, i9, i10, i11, hs, hp⟩, a1, a2, a3⟩ := h
      refine ⟨⟨?_, ?_, ?_, ?_, ?_, ?_, ?_, ?_, ?_, ?_, ?_, ?_, ?_, ?_, ?_, ?_, ?_, ?_, ?_⟩, ?_, ?_, ?_⟩
      all_goals dsimp only [appendLog, Inventory.setK, Inventory.getK]
      all_goals first
        | assumption
        | omega

/-- Buying a shop weapon preserves the invariant (money, damage range,
sword name and ownership record are untracked). -/
theorem FullInv_buyWeapon (era : EraId) (wid : Int) (s : State) (h : FullInv s) :
    FullInv (buyWeapon era wid s) := by
  unfold buyWeapon
  split
  · exact h
  split
  · exact FullInv_appendLog _ _ _ h
  split
  · exact FullInv_appendLog _ _ _ h
  · exact FullInv_stable s _ rfl rfl rfl rfl rfl rfl rfl rfl rfl h

/-- Buying the pending merchant offer preserves the invariant. -/
theorem FullInv_buyMerchant (s : State) (h : FullInv s) : FullInv (buyMerchant s) := by
  unfold buyMerchant
  repeat' split
  all_goals first
    | exact h
    | exact FullInv_appendLog _ _ _ h
    | exact FullInv_stable s _ rfl rfl rfl rfl rfl rfl rfl rfl rfl h
    | (unfold FullInv ClaimInv AuxInv at h ⊢
       obtain ⟨⟨h1, h2, h3, h4, h5, h6, i1, i2, i3, i4, i5, i6, i7, i8, i9, i10, i11, hs, hp⟩, a1, a2, a3⟩ := h
       refine ⟨⟨?_, ?_, ?_, ?_, ?_, ?_, ?_, ?_, ?_, ?_, ?_, ?_, ?_, ?_, ?_, ?_, ?_, ?_, ?_⟩, ?_, ?_, ?_⟩
       all_goals dsimp only [appendLog]
       all_goals first
         | assumption
         | exact clamp_lb _ _ _
         | exact clamp_ub _ _ _ (by omega)
         | omega)

/-- Starting a fight preserves the invariant: both health bars are reset
within bounds and the installed enemy config has a nonnegative damage
floor. -/
theorem FullInv_startFight (d : Diff) (s : State) (h : FullInv s) : FullInv (startFight d s) := by
  cases d
  all_goals
    unfold FullInv ClaimInv AuxInv at h ⊢
    obtain ⟨⟨h1, h2, h3, h4, h5, h6, i1, i2, i3, i4, i5, i6, i7, i8, i9, i10, i11, hs, hp⟩, a1, a2, a3⟩ := h
    refine ⟨⟨?_, ?_, ?_, ?_, ?_, ?_, ?_, ?_, ?_, ?_, ?_, ?_, ?_, ?_, ?_, ?_, ?_, ?_, ?_⟩, ?_, ?_, ?_⟩
    all_goals dsimp only [startFight, ENEMY]
    all_goals first
      | assumption
      | decide
      | (intro c hc; injection hc with h9; subst h9; decide)

/-- The poison tick preserves the invariant. -/
theorem FullInv_updateFightBars (s : State) (h : FullInv s) : FullInv (updateFightBars s) := by
  unfold updateFightBars
  split
  · unfold FullInv ClaimInv AuxInv at h ⊢
    obtain ⟨⟨h1, h2, h3, h4, h5, h6, i1, i2, i3, i4, i5, i6, i7, i8, i9, i10, i11, hs, hp⟩, a1, a2, a3⟩ := h
    refine ⟨⟨?_, ?_, ?_, ?_, ?_, ?_, ?_, ?_, ?_, ?_, ?_, ?_, ?_, ?_, ?_, ?_, ?_, ?_, ?_⟩, ?_, ?_, ?_⟩
    all_goals dsimp only []
    all_goals first
      | assumption
      | exact le_max_left 0 _
      | exact max_le (by omega) (by omega)
  · exact h

/-- Applying the player's damage preserves the invariant. -/
theorem FullInv_fightApplyPdamage (pdamage : Int) (s : State) (h : FullInv s) :
    FullInv (fightApplyPdamage pdamage s) := by
  unfold fightApplyPdamage
  split
  · unfold FullInv ClaimInv AuxInv at h ⊢
    obtain ⟨⟨h1, h2, h3, h4, h5, h6, i1, i2, i3, i4, i5, i6, i7, i8, i9, i10, i11, hs, hp⟩, a1, a2, a3⟩ := h
    refine ⟨⟨?_, ?_, ?_, ?_, ?_, ?_, ?_, ?_, ?_, ?_, ?_, ?_, ?_, ?_, ?_, ?_, ?_, ?_, ?_⟩, ?_, ?_, ?_⟩
    all_goals dsimp only []
    all_goals first
      | assumption
      | exact le_max_left 0 _
      | exact max_le (by omega) (by omega)
  · exact h

/-- The enemy turn preserves the invariant, given a nonnegative damage
floor on the enemy config. -/
theorem FullInv_fightEnemyTurn (cfg : EnemyCfg) (pdamage : Int) (s : State) (g : Rng)
    (hc : 0 ≤ cfg.damage_min) (h : FullInv s) : FullInv (fightEnemyTurn cfg pdamage s g).1 := by
  unfold fightEnemyTurn
  split
  · exact FullInv_stable s _ rfl rfl rfl rfl rfl rfl rfl rfl rfl h
  · have h8 := randIn_lb cfg.damage_min cfg.damage_max g
    split
    · have h9 : (0:Int) ≤ max 0 ((randIn cfg.damage_min cfg.damage_max g).1 + pdamage) :=
        le_max_left 0 _
      unfold FullInv ClaimInv AuxInv at h ⊢
      obtain ⟨⟨h1, h2, h3, h4, h5, h6, i1, i2, i3, i4, i5, i6, i7, i8, i9, i10, i11, hs, hp⟩, a1, a2, a3⟩ := h
      refine ⟨⟨?_, ?_, ?_, ?_, ?_, ?_, ?_, ?_, ?_, ?_, ?_, ?_, ?_, ?_, ?_, ?_, ?_, ?_, ?_⟩, ?_, ?_, ?_⟩
      all_goals dsimp only []
      all_goals first
        | assumption
        | exact le_max_left 0 _
        | exact max_le (by omega) (by omega)
    · unfold FullInv ClaimInv AuxInv at h ⊢
      obtain ⟨⟨h1, h2, h3, h4, h5, h6, i1, i2, i3, i4, i5, i6, i7, i8, i9, i10, i11, hs, hp⟩, a1, a2, a3⟩ := h
      refine ⟨⟨?_, ?_, ?_, ?_, ?_, ?_, ?_, ?_, ?_, ?_, ?_, ?_, ?_, ?_, ?_, ?_, ?_, ?_, ?_⟩, ?_, ?_, ?_⟩
      all_goals dsimp only []
      all_goals first
        | assumption
        | exact le_max_left 0 _
        | exact max_le (by omega) (by omega)

/-- Settlement preserves the invariant (money and counters are untracked). -/
theorem FullInv_fightSettle (cfg : EnemyCfg) (s : State) (g : Rng) (h : FullInv s) :
    FullInv (fightSettle cfg s g).1 := by
  unfold fightSettle
  split
  · split
    · exact FullInv_stable s _ rfl rfl rfl rfl rfl rfl rfl rfl rfl h
    · exact FullInv_stable s _ rfl rfl rfl rfl rfl rfl rfl rfl rfl h
  · exact h

/-- The whole non-short-circuiting combat tail preserves the invariant. -/
theorem FullInv_fightTail (cfg : EnemyCfg) (pdamage : Int) (s : State) (g : Rng)
    (hc : 0 ≤ cfg.damage_min) (h : FullInv s) : FullInv (fightTail cfg pdamage s g).1 := by
  unfold fightTail
  exact FullInv_fightSettle cfg _ _
    (FullInv_updateFightBars _
      (FullInv_fightEnemyTurn cfg pdamage _ g hc (FullInv_fightApplyPdamage pdamage s h)))

/-- A combat action preserves the invariant (dispatch on the action). -/
theorem FullInv_playerActionGo (a : FightAction) (cfg : EnemyCfg) (s : State) (g : Rng)
    (hc : 0 ≤ cfg.damage_min) (h : FullInv s) : FullInv (playerActionGo a cfg s g).1 := by
  cases a
  case strike => exact FullInv_fightTail cfg _ s _ hc h
  case block => exact FullInv_fightTail cfg _ s _ hc h
  case heal =>
    apply FullInv_updateFightBars
    split
    · unfold FullInv ClaimInv AuxInv at h ⊢
      obtain ⟨⟨h1, h2, h3, h4, h5, h6, i1, i2, i3, i4, i5, i6, i7, i8, i9, i10, i11, hs, hp⟩, a1, a2, a3⟩ := h
      refine ⟨⟨?_, ?_, ?_, ?_, ?_, ?_, ?_, ?_, ?_, ?_, ?_, ?_, ?_, ?_, ?_, ?_, ?_, ?_, ?_⟩, ?_, ?_, ?_⟩
      all_goals dsimp only []
      all_goals first
        | assumption
        | omega
    · exact h
  case dmg_pot =>
    dsimp only [playerActionGo]
    split
    · apply FullInv_fightTail cfg _ _ _ hc
      unfold FullInv ClaimInv AuxInv at h ⊢
      obtain ⟨⟨h1, h2, h3, h4, h5, h6, i1, i2, i3, i4, i5, i6, i7, i8, i9, i10, i11, hs, hp⟩, a1, a2, a3⟩ := h
      refine ⟨⟨?_, ?_, ?_, ?_, ?_, ?_, ?_, ?_, ?_, ?_, ?_, ?_, ?_, ?_, ?_, ?_, ?_, ?_, ?_⟩, ?_, ?_, ?_⟩
      all_goals dsimp only []
      all_goals first
        | assumption
        | omega
    · exact h
  case lightning =>
    apply FullInv_updateFightBars
    split
    · unfold FullInv ClaimInv AuxInv at h ⊢
      obtain ⟨⟨h1, h2, h3, h4, h5, h6, i1, i2, i3, i4, i5, i6, i7, i8, i9, i10, i11, hs, hp⟩, a1, a2, a3⟩ := h
      refine ⟨⟨?_, ?_, ?_, ?_, ?_, ?_, ?_, ?_, ?_, ?_, ?_, ?_, ?_, ?_, ?_, ?_, ?_, ?_, ?_⟩, ?_, ?_, ?_⟩
      all_goals dsimp only []
      all_goals first
        | assumption
        | omega
    · exact h
  case sleep =>
    apply FullInv_updateFightBars
    split
    · unfold FullInv ClaimInv AuxInv at h ⊢
      obtain ⟨⟨h1, h2, h3, h4, h5, h6, i1, i2, i3, i4, i5, i6, i7, i8, i9, i10, i11, hs, hp⟩, a1, a2, a3⟩ := h
      refine ⟨⟨?_, ?_, ?_, ?_, ?_, ?_, ?_, ?_, ?_, ?_, ?_, ?_, ?_, ?_, ?_, ?_, ?_, ?_, ?_⟩, ?_, ?_, ?_⟩
      all_goals dsimp only []
      all_goals first
        | assumption
        | omega
    · exact h
  case poison =>
    apply FullInv_updateFightBars
    split
    · unfold FullInv ClaimInv AuxInv at h ⊢
      obtain ⟨⟨h1, h2, h3, h4, h5, h6, i1, i2, i3, i4, i5, i6, i7, i8, i9, i10, i11, hs, hp⟩, a1, a2, a3⟩ := h
      refine ⟨⟨?_, ?_, ?_, ?_, ?_, ?_, ?_, ?_, ?_, ?_, ?_, ?_, ?_, ?_, ?_, ?_, ?_, ?_, ?_⟩, ?_, ?_, ?_⟩
      all_goals dsimp only []
      all_goals first
        | assumption
        | omega
    · exact h

/-- A combat action through the command layer preserves the invariant. -/
theorem FullInv_playerAction (a : FightAction) (s : State) (g : Rng) (h : FullInv s) :
    FullInv (playerAction a s g).1 := by
  unfold playerAction
  split
  · exact h
  · rename_i cfg heq
    exact FullInv_playerActionGo a cfg s g (h.2.2.2 cfg heq) h

/-- Toggling a policy preserves the invariant. -/
theorem FullInv_togglePolicy (nm : String) (s : State) (h : FullInv s) :
    FullInv (togglePolicy nm s) := by
  unfold togglePolicy
  split
  · exact h
  · exact FullInv_stable s _ rfl rfl rfl rfl rfl rfl rfl rfl rfl h

/-- Every command preserves the invariant, for every RNG stream. -/
theorem FullInv_step (c : Cmd) (s : State) (g : Rng) (h : FullInv s) : FullInv (step c s g).1 := by
  cases c
  case sleepCmd => exact FullInv_command_sleep s g h
  case tax => exact FullInv_command_tax s g h
  case pay => exact FullInv_command_pay s h
  case expand => exact FullInv_command_expand s h
  case stack k p q nm => exact FullInv_buyStack k p q nm s h
  case weaponBuy e w => exact FullInv_buyWeapon e w s h
  case merchantBuy => exact FullInv_buyMerchant s h
  case fightStart d => exact FullInv_startFight d s h
  case action a => exact FullInv_playerAction a s g h
  case policyToggle nm => exact FullInv_togglePolicy nm s h

/-- A fresh game satisfies the invariant, whatever the death-day draw. -/
theorem FullInv_initialState (g : Rng) : FullInv (initialState g) := by
  unfold FullInv ClaimInv AuxInv initialState
  refine ⟨⟨?_, ?_, ?_, ?_, ?_, ?_, ?_, ?_, ?_, ?_, ?_, ?_, ?_, ?_, ?_, ?_, ?_, ?_, ?_⟩, ?_, ?_, ?_⟩
  all_goals dsimp only []
  all_goals first
    | decide
    | exact fun c hc => Option.noConfusion hc

/-- Every reachable Ledger satisfies the invariant. -/
theorem Reachable_FullInv {s : State} (h : Reachable s) : FullInv s := by
  induction h with
  | init g => exact FullInv_initialState g
  | next c g _ ih => exact FullInv_step c _ g ih

/-- `sliceLast` keeps a list that is already short enough. -/
theorem sliceLast_of_le (n : Nat) (l : List α) (h : l.length ≤ n) : sliceLast n l = l := by
  unfold sliceLast
  rw [Nat.sub_eq_zero_of_le h, List.drop_zero]

/-- Below the 600-entry cap, `appendLog` literally appends one entry. -/
theorem appendLog_logs (s : State) (t : String) (tag : Tag) (h : s.logs.length ≤ 599) :
    (appendLog s t tag).logs =
      s.logs ++ [{ text := t, tag := tag,
                   id := match s.logs.getLast? with
                         | some e => e.id + 1
                         | none => 1 }] := by
  unfold appendLog
  dsimp only []
  apply sliceLast_of_le
  rw [List.length_append]
  dsimp only [List.length_cons, List.length_nil]
  omega

/-- Below the cap, `appendLog` grows the log by exactly one entry. -/
theorem appendLog_length (s : State) (t : String) (tag : Tag) (h : s.logs.length ≤ 599) :
    (appendLog s t tag).logs.length = s.logs.length + 1 := by
  rw [appendLog_logs s t tag h, List.length_append]
  simp

/-- The Random Event Resolver only appends to the log: below the cap, the
new log is the old log plus at most one entry (zero only on the
policy-unlock branch without locked policies). -/
theorem random_event_appends (s : State) (g : Rng) (h : s.logs.length ≤ 599) :
    ∃ t : List LogEntry, t.length ≤ 1 ∧ (random_event s g).1.logs = s.logs ++ t := by
  unfold random_event
  split_ifs
  · unfold reProtest
    dsimp only []
    refine ⟨_, ?_, appendLog_logs _ _ _ h⟩
    simp
  · unfold reRogue
    split <;> dsimp only [] <;> (refine ⟨_, ?_, appendLog_logs _ _ _ h⟩; simp)
  · unfold merchant_event
    split
    · unfold merchantOfferWeapon
      dsimp only []
      refine ⟨_, ?_, appendLog_logs _ _ _ h⟩
      simp
    · unfold merchantOfferUnique
      dsimp only []
      refine ⟨_, ?_, appendLog_logs _ _ _ h⟩
      simp
  · unfold reDisaster
    split <;> dsimp only [] <;> (refine ⟨_, ?_, appendLog_logs _ _ _ h⟩; simp)
  · unfold reRoyal
    dsimp only []
    refine ⟨_, ?_, appendLog_logs _ _ _ h⟩
    simp
  · unfold reRelic
    split <;> dsimp only [] <;> (refine ⟨_, ?_, appendLog_logs _ _ _ h⟩; simp)
  · unfold rePolicyUnlock
    split
    · dsimp only []
      refine ⟨_, ?_, appendLog_logs _ _ _ h⟩
      simp
    · exact ⟨[], by simp, by simp⟩
  · unfold reFestival
    dsimp only []
    refine ⟨_, ?_, appendLog_logs _ _ _ h⟩
    simp
  · unfold reTreasure
    dsimp only []
    refine ⟨_, ?_, appendLog_logs _ _ _ h⟩
    simp
  · unfold reCalm
    dsimp only []
    refine ⟨_, ?_, appendLog_logs _ _ _ h⟩
    simp

/-- A one-sided cumulative ten-way dispatch chain equals the corresponding
two-sided disjoint-range chain, for a selector in [1,100]. -/
theorem dispatch10_eq {α : Type} (r : Int) (h1 : 1 ≤ r) (h100 : r ≤ 100)
    (B1 B2 B3 B4 B5 B6 B7 B8 B9 B10 : α) :
    (if r ≤ 10 then B1 else if r ≤ 20 then B2 else if r ≤ 30 then B3
     else if r ≤ 40 then B4 else if r ≤ 50 then B5 else if r ≤ 55 then B6
     else if r ≤ 60 then B7 else if r ≤ 70 then B8 else if r ≤ 80 then B9 else B10) =
    (if 1 ≤ r ∧ r ≤ 10 then B1 else if 11 ≤ r ∧ r ≤ 20 then B2
     else if 21 ≤ r ∧ r ≤ 30 then B3 else if 31 ≤ r ∧ r ≤ 40 then B4
     else if 41 ≤ r ∧ r ≤ 50 then B5 else if 51 ≤ r ∧ r ≤ 55 then B6
     else if 56 ≤ r ∧ r ≤ 60 then B7 else if 61 ≤ r ∧ r ≤ 70 then B8
     else if 71 ≤ r ∧ r ≤ 80 then B9 else B10) := by
  by_cases c1 : r ≤ 10
  · rw [if_pos c1,
        if_pos (show 1 ≤ r ∧ r ≤ 10 from ⟨h1, c1⟩)]
  · 
    by_cases c2 : r ≤ 20
    · rw [if_neg c1,
          if_pos c2,
          if_neg (show ¬(1 ≤ r ∧ r ≤ 10) from fun hc => c1 hc.2),
          if_pos (show 11 ≤ r ∧ r ≤ 20 from ⟨by omega, c2⟩)]
    · 
      by_cases c3 : r ≤ 30
      · rw [if_neg c1,
            if_neg c2,
            if_pos c3,
            if_neg (show ¬(1 ≤ r ∧ r ≤ 10) from fun hc => c1 hc.2),
            if_neg (show ¬(11 ≤ r ∧ r ≤ 20) from fun hc => c2 hc.2),
            if_pos (show 21 ≤ r ∧ r ≤ 30 from ⟨by omega, c3⟩)]
      · 
        by_cases c4 : r ≤ 40
        · rw [if_neg c1,
              if_neg c2,
              if_neg c3,
              if_pos c4,
              if_neg (show ¬(1 ≤ r ∧ r ≤ 10) from fun hc => c1 hc.2),
              if_neg (show ¬(11 ≤ r ∧ r ≤ 20) from fun hc => c2 hc.2),
              if_neg (show ¬(21 ≤ r ∧ r ≤ 30) from fun hc => c3 hc.2),
              if_pos (show 31 ≤ r ∧ r ≤ 40 from ⟨by omega, c4⟩)]
        · 
          by_cases c5 : r ≤ 50
          · rw [if_neg c1,
                if_neg c2,
                if_neg c3,
                if_neg c4,
                if_pos c5,
                if_neg (show ¬(1 ≤ r ∧ r ≤ 10) from fun hc => c1 hc.2),
                if_neg (show ¬(11 ≤ r ∧ r ≤ 20) from fun hc => c2 hc.2),
                if_neg (show ¬(21 ≤ r ∧ r ≤ 30) from fun hc => c3 hc.2),
                if_neg (show ¬(31 ≤ r ∧ r ≤ 40) from fun hc => c4 hc.2),
                if_pos (show 41 ≤ r ∧ r ≤ 50 from ⟨by omega, c5⟩)]
          · 
            by_cases c6 : r ≤ 55
            · rw [if_neg c1,
                  if_neg c2,
                  if_neg c3,
                  if_neg c4,
                  if_neg c5,
                  if_pos c6,
                  if_neg (show ¬(1 ≤ r ∧ r ≤ 10) from fun hc => c1 hc.2),
                  if_neg (show ¬(11 ≤ r ∧ r ≤ 20) from fun hc => c2 hc.2),
                  if_neg (show ¬(21 ≤ r ∧ r ≤ 30) from fun hc => c3 hc.2),
                  if_neg (show ¬(31 ≤ r ∧ r ≤ 40) from fun hc => c4 hc.2),
                  if_neg (show ¬(41 ≤ r ∧ r ≤ 50) from fun hc => c5 hc.2),
                  if_pos (show 51 ≤ r ∧ r ≤ 55 from ⟨by omega, c6⟩)]
            · 
              by_cases c7 : r ≤ 60
              · rw [if_neg c1,
                    if_neg c2,
                    if_neg c3,
                    if_neg c4,
                    if_neg c5,
                    if_neg c6,
                    if_pos c7,
                    if_neg (show ¬(1 ≤ r ∧ r ≤ 10) from fun hc => c1 hc.2),
                    if_neg (show ¬(11 ≤ r ∧ r ≤ 20) from fun hc => c2 hc.2),
                    if_neg (show ¬(21 ≤ r ∧ r ≤ 30) from fun hc => c3 hc.2),
                    if_neg (show ¬(31 ≤ r ∧ r ≤ 40) from fun hc => c4 hc.2),
                    if_neg (show ¬(41 ≤ r ∧ r ≤ 50) from fun hc => c5 hc.2),
                    if_neg (show ¬(51 ≤ r ∧ r ≤ 55) from fun hc => c6 hc.2),
                    if_pos (show 56 ≤ r ∧ r ≤ 60 from ⟨by omega, c7⟩)]
              · 
                by_cases c8 : r ≤ 70
                · rw [if_neg c1,
                      if_neg c2,
                      if_neg c3,
                      if_neg c4,
                      if_neg c5,
                      if_neg c6,
                      if_neg c7,
                      if_pos c8,
                      if_neg (show ¬(1 ≤ r ∧ r ≤ 10) from fun hc => c1 hc.2),
                      if_neg (show ¬(11 ≤ r ∧ r ≤ 20) from fun hc => c2 hc.2),
                      if_neg (show ¬(21 ≤ r ∧ r ≤ 30) from fun hc => c3 hc.2),
                      if_neg (show ¬(31 ≤ r ∧ r ≤ 40) from fun hc => c4 hc.2),
                      if_neg (show ¬(41 ≤ r ∧ r ≤ 50) from fun hc => c5 hc.2),
                      if_neg (show ¬(51 ≤ r ∧ r ≤ 55) from fun hc => c6 hc.2),
                      if_neg (show ¬(56 ≤ r ∧ r ≤ 60) from fun hc => c7 hc.2),
                      if_pos (show 61 ≤ r ∧ r ≤ 70 from ⟨by omega, c8⟩)]
                · 
                  by_cases c9 : r ≤ 80
                  · rw [if_neg c1,
                        if_neg c2,
                        if_neg c3,
                        if_neg c4,
                        if_neg c5,
                        if_neg c6,
                        if_neg c7,
                        if_neg c8,
                        if_pos c9,
                        if_neg (show ¬(1 ≤ r ∧ r ≤ 10) from fun hc => c1 hc.2),
                        if_neg (show ¬(11 ≤ r ∧ r ≤ 20) from fun hc => c2 hc.2),
                        if_neg (show ¬(21 ≤ r ∧ r ≤ 30) from fun hc => c3 hc.2),
                        if_neg (show ¬(31 ≤ r ∧ r ≤ 40) from fun hc => c4 hc.2),
                        if_neg (show ¬(41 ≤ r ∧ r ≤ 50) from fun hc => c5 hc.2),
                        if_neg (show ¬(51 ≤ r ∧ r ≤ 55) from fun hc => c6 hc.2),
                        if_neg (show ¬(56 ≤ r ∧ r ≤ 60) from fun hc => c7 hc.2),
                        if_neg (show ¬(61 ≤ r ∧ r ≤ 70) from fun hc => c8 hc.2),
                        if_pos (show 71 ≤ r ∧ r ≤ 80 from ⟨by omega, c9⟩)]
                  · rw [if_neg c1,
                        if_neg c2,
                        if_neg c3,
                        if_neg c4,
                        if_neg c5,
                        if_neg c6,
                        if_neg c7,
                        if_neg c8,
                        if_neg c9,
                        if_neg (show ¬(1 ≤ r ∧ r ≤ 10) from fun hc => c1 hc.2),
                        if_neg (show ¬(11 ≤ r ∧ r ≤ 20) from fun hc => c2 hc.2),
                        if_neg (show ¬(21 ≤ r ∧ r ≤ 30) from fun hc => c3 hc.2),
                        if_neg (show ¬(31 ≤ r ∧ r ≤ 40) from fun hc => c4 hc.2),
                        if_neg (show ¬(41 ≤ r ∧ r ≤ 50) from fun hc => c5 hc.2),
                        if_neg (show ¬(51 ≤ r ∧ r ≤ 55) from fun hc => c6 hc.2),
                        if_neg (show ¬(56 ≤ r ∧ r ≤ 60) from fun hc => c7 hc.2),
                        if_neg (show ¬(61 ≤ r ∧ r ≤ 70) from fun hc => c8 hc.2),
                        if_neg (show ¬(71 ≤ r ∧ r ≤ 80) from fun hc => c9 hc.2)]

/-- A one-sided cumulative four-way dispatch chain equals the corresponding
two-sided disjoint-range chain, for a selector in [1,100]. -/
theorem dispatch4_eq {α : Type} (r : Int) (h1 : 1 ≤ r) (h100 : r ≤ 100)
    (B1 B2 B3 B4 : α) :
    (if r ≤ 15 then B1 else if r ≤ 30 then B2 else if r ≤ 40 then B3 else B4) =
    (if 1 ≤ r ∧ r ≤ 15 then B1 else if 16 ≤ r ∧ r ≤ 30 then B2
     else if 31 ≤ r ∧ r ≤ 40 then B3 else B4) := by
  by_cases c1 : r ≤ 15
  · rw [if_pos c1,
        if_pos (show 1 ≤ r ∧ r ≤ 15 from ⟨h1, c1⟩)]
  · 
    by_cases c2 : r ≤ 30
    · rw [if_neg c1,
          if_pos c2,
          if_neg (show ¬(1 ≤ r ∧ r ≤ 15) from fun hc => c1 hc.2),
          if_pos (show 16 ≤ r ∧ r ≤ 30 from ⟨by omega, c2⟩)]
    · 
      by_cases c3 : r ≤ 40
      · rw [if_neg c1,
            if_neg c2,
            if_pos c3,
            if_neg (show ¬(1 ≤ r ∧ r ≤ 15) from fun hc => c1 hc.2),
            if_neg (show ¬(16 ≤ r ∧ r ≤ 30) from fun hc => c2 hc.2),
            if_pos (show 31 ≤ r ∧ r ≤ 40 from ⟨by omega, c3⟩)]
      · rw [if_neg c1,
            if_neg c2,
            if_neg c3,
            if_neg (show ¬(1 ≤ r ∧ r ≤ 15) from fun hc => c1 hc.2),
            if_neg (show ¬(16 ≤ r ∧ r ≤ 30) from fun hc => c2 hc.2),
            if_neg (show ¬(31 ≤ r ∧ r ≤ 40) from fun hc => c3 hc.2)]

/-- Claim C2: each invocation of the Random Event Resolver draws one
integer in [1,100] and dispatches by inclusive cumulative range into
exactly one outcome bucket (1-10 protest, 11-20 rogue faction, 21-30
merchant, 31-40 disaster, 41-50 royal decision, 51-55 relic, 56-60 policy
unlock, 61-70 festival, 71-80 treasure, 81-100 calm); the source's
one-sided cumulative chain equals the spec's disjoint two-sided bucket
table, so no two buckets apply on a single invocation. -/
theorem C2_bucket_dispatch (s : State) (g : Rng) :
    1 ≤ (randIn 1 100 g).1 ∧ (randIn 1 100 g).1 ≤ 100 ∧
    random_event s g = random_event_spec s g := by
  have hlb := randIn_lb 1 100 g
  have hub := randIn_ub 1 100 g (by norm_num)
  refine ⟨hlb, hub, ?_⟩
  unfold random_event random_event_spec
  exact dispatch10_eq _ hlb hub _ _ _ _ _ _ _ _ _ _

/-- Witness for C2 on a fresh Ledger with a concrete stream. -/
theorem C2_bucket_dispatch_witness :
    random_event (initialState [0]) [7] = random_event_spec (initialState [0]) [7] :=
  (C2_bucket_dispatch (initialState [0]) [7]).2.2

/-- Claim C10: the Sleep command's secondary roll draws one integer in
[1,100]; 1-15 is the bandit raid, 16-30 the festival, 31-40 the
travellers, and 41-100 has no effect: the source's cumulative chain equals
the spec's disjoint two-sided bucket table. -/
theorem C10_secondary_roll (next : State) (g : Rng) :
    1 ≤ (randIn 1 100 g).1 ∧ (randIn 1 100 g).1 ≤ 100 ∧
    sleep_random_bonus next g = sleep_random_bonus_spec next g := by
  have hlb := randIn_lb 1 100 g
  have hub := randIn_ub 1 100 g (by norm_num)
  refine ⟨hlb, hub, ?_⟩
  unfold sleep_random_bonus sleep_random_bonus_spec
  exact dispatch4_eq _ hlb hub _ _ _ _

/-- Witness for C10 on a fresh Ledger with a concrete stream. -/
theorem C10_secondary_roll_witness :
    sleep_random_bonus (initialState [0]) [22] =
      sleep_random_bonus_spec (initialState [0]) [22] :=
  (C10_secondary_roll (initialState [0]) [22]).2.2

/-- Claim C9 (amended): below the log cap, every outcome bucket of the
Random Event Resolver appends exactly one log entry, except the merchant
bucket (excluded by the claim itself, though it also logs exactly once)
and except the policy-unlock bucket when no locked policy remains, which
appends nothing - the claim's "including the policy-unlock bucket in a
state where no locked policy remains" is refuted by the counterexample. -/
theorem C9_log_per_bucket (s : State) (g : Rng) (hlen : s.logs.length ≤ 599)
    (hm : ¬ (21 ≤ (randIn 1 100 g).1 ∧ (randIn 1 100 g).1 ≤ 30))
    (hp : 56 ≤ (randIn 1 100 g).1 → (randIn 1 100 g).1 ≤ 60 → lockedKeys s ≠ []) :
    (random_event s g).1.logs.length = s.logs.length + 1 := by
  have hlb := randIn_lb 1 100 g
  have hub := randIn_ub 1 100 g (by norm_num)
  unfold random_event
  split_ifs with h1 h2 h3 h4 h5 h6 h7 h8 h9
  · unfold reProtest
    dsimp only []
    exact appendLog_length _ _ _ hlen
  · unfold reRogue
    split <;> dsimp only [] <;> exact appendLog_length _ _ _ hlen
  · exact absurd ⟨by omega, h3⟩ hm
  · unfold reDisaster
    split <;> dsimp only [] <;> exact appendLog_length _ _ _ hlen
  · unfold reRoyal
    dsimp only []
    exact appendLog_length _ _ _ hlen
  · unfold reRelic
    split <;> dsimp only [] <;> exact appendLog_length _ _ _ hlen
  · unfold rePolicyUnlock
    split
    · dsimp only []
      exact appendLog_length _ _ _ hlen
    · rename_i hz
      exact absurd (List.length_eq_zero.mp (not_not.mp hz))
        (hp (by omega) (by omega))
  · unfold reFestival
    dsimp only []
    exact appendLog_length _ _ _ hlen
  · unfold reTreasure
    dsimp only []
    exact appendLog_length _ _ _ hlen
  · unfold reCalm
    dsimp only []
    exact appendLog_length _ _ _ hlen

/-- Witness for C9 on a fresh Ledger: the roll 1 protest bucket logs
exactly once. -/
theorem C9_log_per_bucket_witness :
    (random_event (initialState [0]) [0]).1.logs.length =
      (initialState [0]).logs.length + 1 :=
  C9_log_per_bucket (initialState [0]) [0] (by decide) (by decide) (by decide)

/-- Counterexample to C9 as stated: with every policy unlocked, a roll of
56 lands in the policy-unlock bucket and appends no log entry at all. -/
theorem C9_log_per_bucket_counterexample :
    56 ≤ (randIn 1 100 [55]).1 ∧ (randIn 1 100 [55]).1 ≤ 60 ∧
    (random_event allUnlockedState [55]).1.logs.length =
      allUnlockedState.logs.length := by
  refine ⟨by decide, by decide, ?_⟩
  rfl

/-- Claim C3 (amended): in every Sleep invocation the Random Event
Resolver runs last, on the Ledger `sleepBase` that already contains the
death-day log (death path) or the policy-upkeep effects (normal path): its
entries are appended after those, not before. -/
theorem C3_resolver_after_upkeep (s : State) (g : Rng)
    (hlen : (sleepBase s g).logs.length ≤ 599) :
    ∃ t : List LogEntry, t.length ≤ 1 ∧
      (command_sleep s g).1.logs = (sleepBase s g).logs ++ t := by
  unfold command_sleep
  unfold sleepBase at hlen ⊢
  by_cases hd : (sleep_daycore s g).1.day ≥ (sleep_daycore s g).1.death_day
  · simp only [if_pos hd] at hlen ⊢
    exact random_event_appends _ _ hlen
  · simp only [if_neg hd] at hlen ⊢
    exact random_event_appends _ _ hlen

/-- Witness for C3 on the concrete Ledger `c3s`. -/
theorem C3_resolver_after_upkeep_witness :
    ∃ t : List LogEntry, t.length ≤ 1 ∧
      (command_sleep c3s [59, 0, 80]).1.logs = (sleepBase c3s [59, 0, 80]).logs ++ t :=
  C3_resolver_after_upkeep c3s [59, 0, 80] (by decide)

/-- Counterexample to C3 as stated: on `c3s` the Universal Tax upkeep line
is logged before the resolver's calm-day line (the resolver runs after
policy upkeep, not before), and on the death path the resolver runs after
the death-day log while policy upkeep is skipped entirely. -/
theorem C3_order_counterexample :
    (command_sleep c3s [59, 0, 80]).1.logs.map (fun e => e.text) =
      ["You consumed 50 food for your population.",
       "Your people are learning to craft stone tools.",
       "Universal Tax active: +20 coins, -2 happiness.",
       "A calm day passes."] ∧
    (command_sleep { c3s with day := 99 } [59, 0, 80]).1.logs.map (fun e => e.text) =
      ["You consumed 50 food for your population.",
       "Your people are learning to craft stone tools.",
       "Your time has come. Your kingdom now lives on in legend.",
       "Protest in the streets. Lost 180 coins. Happiness reduced."] := by
  constructor
  · rfl
  · rfl

/-- Claim C1 (amended): every reachable Ledger, after any command with any
RNG stream, keeps happiness ∈ [0,100], phealth ∈ [0,100], ehealth ∈
[0,300] (the HARD enemy's health; the claimed ehealth ≤ 100 fails at
MEDIUM and HARD fight starts), every inventory counter ≥ 0,
strength ≤ maxstrength and people ≥ 0. -/
theorem C1_command_invariants (s : State) (c : Cmd) (g : Rng) (h : Reachable s) :
    ClaimInv (step c s g).1 :=
  (Reachable_FullInv (Reachable.next c g h)).1

/-- Witness for C1: the tax command on a fresh Ledger. -/
theorem C1_command_invariants_witness :
    ClaimInv (step Cmd.tax (initialState [0]) [1, 2]).1 :=
  C1_command_invariants (initialState [0]) Cmd.tax [1, 2] (Reachable.init [0])

/-- Counterexample to C1 as stated: from the fresh (reachable) Ledger,
starting a MEDIUM fight sets ehealth to the enemy's 200 health, above the
claimed bound of 100. -/
theorem C1_command_invariants_counterexample :
    Reachable (initialState [0]) ∧
    ¬ (step (Cmd.fightStart Diff.MEDIUM) (initialState [0]) []).1.ehealth ≤ 100 :=
  ⟨Reachable.init [0], by decide⟩

/-- `fightApplyPdamage` does not touch the fight counters or the over flag. -/
theorem fightApplyPdamage_frame (p : Int) (s : State) :
    (fightApplyPdamage p s).wfight = s.wfight ∧
    (fightApplyPdamage p s).lfight = s.lfight ∧
    (fightApplyPdamage p s).fight.over = s.fight.over := by
  unfold fightApplyPdamage
  split <;> exact ⟨rfl, rfl, rfl⟩

/-- `fightEnemyTurn` does not touch the fight counters or the over flag. -/
theorem fightEnemyTurn_frame (cfg : EnemyCfg) (p : Int) (s : State) (g : Rng) :
    (fightEnemyTurn cfg p s g).1.wfight = s.wfight ∧
    (fightEnemyTurn cfg p s g).1.lfight = s.lfight ∧
    (fightEnemyTurn cfg p s g).1.fight.over = s.fight.over := by
  unfold fightEnemyTurn
  split
  · exact ⟨rfl, rfl, rfl⟩
  · exact ⟨rfl, rfl, rfl⟩

/-- `updateFightBarsV3` does not touch the fight counters or the over
flag. -/
theorem updateFightBarsV3_frame (s : State) :
    (updateFightBarsV3 s).wfight = s.wfight ∧
    (updateFightBarsV3 s).lfight = s.lfight ∧
    (updateFightBarsV3 s).fight.over = s.fight.over := by
  unfold updateFightBarsV3
  split
  · exact ⟨rfl, rfl, rfl⟩
  · split <;> exact ⟨rfl, rfl, rfl⟩

/-- Upper bound for a 0/1 indicator. -/
theorem ite_zero_one_le (P : Prop) [Decidable P] : (if P then (0 : Int) else 1) ≤ 1 := by
  split <;> omega

/-- Nonnegativity of a 0/1 indicator. -/
theorem ite_zero_one_nonneg (P : Prop) [Decidable P] : 0 ≤ (if P then (0 : Int) else 1) := by
  split <;> omega

/-- Settlement bumps a counter at most once, and only while marking the
fight over: the counter-plus-indicator measure grows by at most one. -/
theorem fightSettleV3_counters (cfg : EnemyCfg) (s : State) (g : Rng) :
    (fightSettleV3 cfg s g).1.wfight +
        (if (fightSettleV3 cfg s g).1.fight.over = true then 0 else 1) ≤ s.wfight + 1 ∧
    (fightSettleV3 cfg s g).1.lfight +
        (if (fightSettleV3 cfg s g).1.fight.over = true then 0 else 1) ≤ s.lfight + 1 := by
  unfold fightSettleV3
  split
  · split
    · dsimp only []
      constructor <;> (rw [if_pos rfl]; omega)
    · dsimp only []
      constructor <;> (rw [if_pos rfl]; omega)
  · have h1 := ite_zero_one_le (s.fight.over = true)
    constructor <;> (dsimp only []; omega)

/-- The non-short-circuiting combat tail bumps each counter-plus-indicator
measure by at most one. -/
theorem fightTailV3_counters (cfg : EnemyCfg) (p : Int) (s : State) (g : Rng) :
    (fightTailV3 cfg p s g).1.wfight +
        (if (fightTailV3 cfg p s g).1.fight.over = true then 0 else 1) ≤ s.wfight + 1 ∧
    (fightTailV3 cfg p s g).1.lfight +
        (if (fightTailV3 cfg p s g).1.fight.over = true then 0 else 1) ≤ s.lfight + 1 := by
  unfold fightTailV3
  dsimp only []
  obtain ⟨h1a, h1b, h1c⟩ := fightApplyPdamage_frame p s
  obtain ⟨h2a, h2b, h2c⟩ := fightEnemyTurn_frame cfg p (fightApplyPdamage p s) g
  obtain ⟨h3a, h3b, h3c⟩ :=
    updateFightBarsV3_frame (fightEnemyTurn cfg p (fightApplyPdamage p s) g).1
  obtain ⟨h4a, h4b⟩ := fightSettleV3_counters cfg
    (updateFightBarsV3 (fightEnemyTurn cfg p (fightApplyPdamage p s) g).1)
    (fightEnemyTurn cfg p (fightApplyPdamage p s) g).2
  constructor <;> omega

/-- One action of the part_000 third-variant fight bumps each
counter-plus-indicator measure by at most one. -/
theorem playerActionGoV3_counters (a : FightAction) (cfg : EnemyCfg) (s : State) (g : Rng) :
    (playerActionGoV3 a cfg s g).1.wfight +
        (if (playerActionGoV3 a cfg s g).1.fight.over = true then 0 else 1) ≤ s.wfight + 1 ∧
    (playerActionGoV3 a cfg s g).1.lfight +
        (if (playerActionGoV3 a cfg s g).1.fight.over = true then 0 else 1) ≤ s.lfight + 1 := by
  cases a
  case strike => exact fightTailV3_counters cfg _ s _
  case block => exact fightTailV3_counters cfg _ s _
  case dmg_pot =>
    dsimp only [playerActionGoV3]
    split
    · obtain ⟨ha, hb⟩ := fightTailV3_counters cfg ((randIn s.minDmg s.maxDmg g).1 + 10)
        { s with inventory := { s.inventory with dpotion := s.inventory.dpotion - 1 } }
        (randIn s.minDmg s.maxDmg g).2
      dsimp only [] at ha hb
      constructor <;> (dsimp only []; omega)
    · have h1 := ite_zero_one_le (s.fight.over = true)
      constructor <;> (dsimp only []; omega)
  case heal =>
    dsimp only [playerActionGoV3]
    split
    · obtain ⟨hfa, hfb, hfc⟩ := updateFightBarsV3_frame
        { s with phealth := 100,
                 inventory := { s.inventory with hpotion := s.inventory.hpotion - 1 } }
      dsimp only [] at hfa hfb hfc
      rw [hfc]
      have h1 := ite_zero_one_le (s.fight.over = true)
      constructor <;> omega
    · obtain ⟨hfa, hfb, hfc⟩ := updateFightBarsV3_frame s
      rw [hfc]
      have h1 := ite_zero_one_le (s.fight.over = true)
      constructor <;> omega
  case lightning =>
    dsimp only [playerActionGoV3]
    split
    · obtain ⟨hfa, hfb, hfc⟩ := updateFightBarsV3_frame
        { s with inventory :=
                 { s.inventory with lightning_potion := s.inventory.lightning_potion - 1 } }
      dsimp only [] at hfa hfb hfc
      rw [hfc]
      have h1 := ite_zero_one_le (s.fight.over = true)
      constructor <;> omega
    · obtain ⟨hfa, hfb, hfc⟩ := updateFightBarsV3_frame s
      rw [hfc]
      have h1 := ite_zero_one_le (s.fight.over = true)
      constructor <;> omega
  case sleep =>
    dsimp only [playerActionGoV3]
    split
    · obtain ⟨hfa, hfb, hfc⟩ := updateFightBarsV3_frame
        { s with inventory :=
                 { s.inventory with sleep_potion := s.inventory.sleep_potion - 1 } }
      dsimp only [] at hfa hfb hfc
      rw [hfc]
      have h1 := ite_zero_one_le (s.fight.over = true)
      constructor <;> omega
    · obtain ⟨hfa, hfb, hfc⟩ := updateFightBarsV3_frame s
      rw [hfc]
      have h1 := ite_zero_one_le (s.fight.over = true)
      constructor <;> omega
  case poison =>
    dsimp only [playerActionGoV3]
    split
    · obtain ⟨hfa, hfb, hfc⟩ := updateFightBarsV3_frame
        { s with fight := { s.fight with poisonTurns := 3 },
                 inventory := { s.inventory with poison_potion := s.inventory.poison_potion - 1 } }
      dsimp only [] at hfa hfb hfc
      rw [hfc]
      have h1 := ite_zero_one_le (s.fight.over = true)
      constructor <;> omega
    · obtain ⟨hfa, hfb, hfc⟩ := updateFightBarsV3_frame s
      rw [hfc]
      have h1 := ite_zero_one_le (s.fight.over = true)
      constructor <;> omega

/-- A player action on a finished fight changes nothing. -/
theorem playerActionV3_over (a : FightAction) (s : State) (g : Rng)
    (h : s.fight.over = true) : playerActionV3 a s g = (s, g) := by
  unfold playerActionV3
  split
  · rfl
  · rw [if_pos h]

/-- One dispatched action bumps each counter-plus-indicator measure by at
most the indicator of the starting state. -/
theorem playerActionV3_counters (a : FightAction) (s : State) (g : Rng) :
    (playerActionV3 a s g).1.wfight +
        (if (playerActionV3 a s g).1.fight.over = true then 0 else 1) ≤
      s.wfight + (if s.fight.over = true then 0 else 1) ∧
    (playerActionV3 a s g).1.lfight +
        (if (playerActionV3 a s g).1.fight.over = true then 0 else 1) ≤
      s.lfight + (if s.fight.over = true then 0 else 1) := by
  unfold playerActionV3
  split
  · constructor <;> (dsimp only []; omega)
  · split
    · constructor <;> (dsimp only []; omega)
    · exact playerActionGoV3_counters a _ s g

/-- The measure argument iterated along an action sequence. -/
theorem runActionsV3_counters (acts : List FightAction) (s : State) (g : Rng) :
    (runActionsV3 acts s g).1.wfight +
        (if (runActionsV3 acts s g).1.fight.over = true then 0 else 1) ≤
      s.wfight + (if s.fight.over = true then 0 else 1) ∧
    (runActionsV3 acts s g).1.lfight +
        (if (runActionsV3 acts s g).1.fight.over = true then 0 else 1) ≤
      s.lfight + (if s.fight.over = true then 0 else 1) := by
  induction acts generalizing s g with
  | nil => constructor <;> (dsimp only [runActionsV3]; omega)
  | cons a rest ih =>
    obtain ⟨h1a, h1b⟩ := playerActionV3_counters a s g
    obtain ⟨h2a, h2b⟩ := ih (playerActionV3 a s g).1 (playerActionV3 a s g).2
    simp only [runActionsV3]
    constructor <;> omega

/-- A finished fight stays frozen along any action sequence. -/
theorem runActionsV3_over_frozen (acts : List FightAction) (s : State) (g : Rng)
    (h : s.fight.over = true) : runActionsV3 acts s g = (s, g) := by
  induction acts with
  | nil => rfl
  | cons a rest ih =>
    simp only [runActionsV3]
    rw [playerActionV3_over a s g h]
    exact ih

/-- Claim C4: once a fight is over, every subsequent player action in the
part_000 third variant leaves the Ledger and the RNG stream unchanged;
along any action sequence the win counter and the loss counter each grow
by at most one per started fight (zero once the fight is over), and a
permitted `startFight` resets the `over` flag. -/
theorem C4_fight_over_frozen (acts : List FightAction) (d : Diff) (s : State) (g : Rng) :
    (s.fight.over = true → runActionsV3 acts s g = (s, g)) ∧
    (runActionsV3 acts s g).1.wfight ≤
      s.wfight + (if s.fight.over = true then 0 else 1) ∧
    (runActionsV3 acts s g).1.lfight ≤
      s.lfight + (if s.fight.over = true then 0 else 1) ∧
    (1 ≤ s.strength → (startFightV3 d s).fight.over = false) := by
  obtain ⟨hca, hcb⟩ := runActionsV3_counters acts s g
  have h0 := ite_zero_one_nonneg ((runActionsV3 acts s g).1.fight.over = true)
  refine ⟨fun h => runActionsV3_over_frozen acts s g h, by omega, by omega, fun hs => ?_⟩
  unfold startFightV3
  rw [if_neg (by omega)]

/-- Witness for C4: in a finished fight, a strike followed by a heal
changes nothing. -/
theorem C4_fight_over_frozen_witness :
    runActionsV3 [FightAction.strike, FightAction.heal] c4over [3, 4] = (c4over, [3, 4]) :=
  (C4_fight_over_frozen [FightAction.strike, FightAction.heal] Diff.EASY c4over [3, 4]).1 rfl

/-- `updateFightBars` never writes the player's health. -/
theorem updateFightBars_phealth (s : State) : (updateFightBars s).phealth = s.phealth := by
  unfold updateFightBars
  split <;> rfl

/-- `updateFightBarsV3` never writes the player's health. -/
theorem updateFightBarsV3_phealth (s : State) :
    (updateFightBarsV3 s).phealth = s.phealth := by
  unfold updateFightBarsV3
  split
  · rfl
  · split <;> rfl

/-- Claim C5: with a fight configured, the heal, lightning, sleep-potion
and poison actions short-circuit in both translated variants: the RNG
stream is returned untouched (no enemy damage roll happens), and the
player's health is never reduced - it becomes exactly 100 on a heal with a
health potion available and is unchanged otherwise. -/
theorem C5_short_circuit (a : FightAction) (cfg : EnemyCfg) (s : State) (g : Rng)
    (hcfg : s.fight.cfg = some cfg)
    (ha : a = FightAction.heal ∨ a = FightAction.lightning ∨ a = FightAction.sleep ∨
      a = FightAction.poison) :
    (playerAction a s g).2 = g ∧
    (playerAction a s g).1.phealth =
      (if a = FightAction.heal ∧ s.inventory.hpotion > 0 then 100 else s.phealth) ∧
    (s.fight.over = false →
      (playerActionV3 a s g).2 = g ∧
      (playerActionV3 a s g).1.phealth =
        (if a = FightAction.heal ∧ s.inventory.hpotion > 0 then 100 else s.phealth)) := by
  unfold playerAction playerActionV3
  rw [hcfg]
  dsimp only []
  rcases ha with h | h | h | h <;> subst h
  · refine ⟨rfl, ?_, fun hov => ?_⟩
    · dsimp only [playerActionGo]
      rw [updateFightBars_phealth]
      by_cases hp : s.inventory.hpotion > 0
      · rw [if_pos hp, if_pos ⟨rfl, hp⟩]
      · rw [if_neg hp, if_neg (fun hc => hp hc.2)]
    · have hov' : ¬ s.fight.over = true := by simp [hov]
      rw [if_neg hov']
      refine ⟨rfl, ?_⟩
      dsimp only [playerActionGoV3]
      rw [updateFightBarsV3_phealth]
      by_cases hp : s.inventory.hpotion > 0
      · rw [if_pos hp, if_pos ⟨rfl, hp⟩]
      · rw [if_neg hp, if_neg (fun hc => hp hc.2)]
  · refine ⟨rfl, ?_, fun hov => ?_⟩
    · dsimp only [playerActionGo]
      rw [updateFightBars_phealth, if_neg (show ¬(FightAction.lightning = FightAction.heal ∧ s.inventory.hpotion > 0) from fun hc => FightAction.noConfusion hc.1)]
      split <;> rfl
    · have hov' : ¬ s.fight.over = true := by simp [hov]
      rw [if_neg hov']
      refine ⟨rfl, ?_⟩
      dsimp only [playerActionGoV3]
      rw [updateFightBarsV3_phealth, if_neg (show ¬(FightAction.lightning = FightAction.heal ∧ s.inventory.hpotion > 0) from fun hc => FightAction.noConfusion hc.1)]
      split <;> rfl
  · refine ⟨rfl, ?_, fun hov => ?_⟩
    · dsimp only [playerActionGo]
      rw [updateFightBars_phealth, if_neg (show ¬(FightAction.sleep = FightAction.heal ∧ s.inventory.hpotion > 0) from fun hc => FightAction.noConfusion hc.1)]
      split <;> rfl
    · have hov' : ¬ s.fight.over = true := by simp [hov]
      rw [if_neg hov']
      refine ⟨rfl, ?_⟩
      dsimp only [playerActionGoV3]
      rw [updateFightBarsV3_phealth, if_neg (show ¬(FightAction.sleep = FightAction.heal ∧ s.inventory.hpotion > 0) from fun hc => FightAction.noConfusion hc.1)]
      split <;> rfl
  · refine ⟨rfl, ?_, fun hov => ?_⟩
    · dsimp only [playerActionGo]
      rw [updateFightBars_phealth, if_neg (show ¬(FightAction.poison = FightAction.heal ∧ s.inventory.hpotion > 0) from fun hc => FightAction.noConfusion hc.1)]
      split <;> rfl
    · have hov' : ¬ s.fight.over = true := by simp [hov]
      rw [if_neg hov']
      refine ⟨rfl, ?_⟩
      dsimp only [playerActionGoV3]
      rw [updateFightBarsV3_phealth, if_neg (show ¬(FightAction.poison = FightAction.heal ∧ s.inventory.hpotion > 0) from fun hc => FightAction.noConfusion hc.1)]
      split <;> rfl

/-- Witness for C5: a heal with no health potion in a fresh EASY fight. -/
theorem C5_short_circuit_witness :
    (playerAction FightAction.heal (startFight Diff.EASY (initialState [0])) [9]).2 = [9] :=
  (C5_short_circuit FightAction.heal (ENEMY Diff.EASY)
    (startFight Diff.EASY (initialState [0])) [9] rfl (Or.inl rfl)).1

/-- `decodeTag` inverts `encodeTag`. -/
theorem decodeTag_encodeTag (t : Tag) : decodeTag (encodeTag t) = some t := by
  cases t <;> rfl

/-- `decodeLog` inverts `encodeLog`. -/
theorem decodeLog_encodeLog (e : LogEntry) : decodeLog (encodeLog e) = some e := by
  cases e with
  | mk text tag id => cases tag <;> rfl

/-- `decodeInventory` inverts `encodeInventory`. -/
theorem decodeInventory_encodeInventory (i : Inventory) :
    decodeInventory (encodeInventory i) = some i := rfl

/-- `decodePolicy` inverts `encodePolicy`. -/
theorem decodePolicy_encodePolicy (p : Policy) : decodePolicy (encodePolicy p) = some p := rfl

/-- `decodeOwned` inverts `encodeOwned`. -/
theorem decodeOwned_encodeOwned (o : Owned) : decodeOwned (encodeOwned o) = some o := rfl

/-- `decodeCfg` inverts `encodeCfg`. -/
theorem decodeCfg_encodeCfg (c : EnemyCfg) : decodeCfg (encodeCfg c) = some c := rfl

/-- `decodeEff` inverts `encodeEff`. -/
theorem decodeEff_encodeEff (e : Option UEffect) : decodeEff (encodeEff e) = some e := by
  rcases e with _ | e
  · rfl
  · cases e <;> rfl

/-- `decodeOffer` inverts `encodeOffer`. -/
theorem decodeOffer_encodeOffer (p : MerchantOffer) : decodeOffer (encodeOffer p) = some p := by
  cases p with
  | weapon n b pr => rfl
  | unique n e v pr =>
    rcases e with _ | u
    · rfl
    · cases u <;> rfl

/-- No offer serializes to `null`. -/
theorem encodeOffer_ne_null (p : MerchantOffer) : encodeOffer p ≠ Json.jnull := by
  cases p <;> exact fun h => Json.noConfusion h

/-- Element-wise decoding inverts an element-wise encoded array. -/
theorem decodeList_map (d : Json → Option α) (enc : α → Json)
    (hr : ∀ a, d (enc a) = some a) (l : List α) :
    decodeList d (l.map enc) = some l := by
  induction l with
  | nil => rfl
  | cons x xs ih =>
    dsimp only [List.map, decodeList]
    rw [hr x, ih]

/-- Entry-wise decoding inverts an entry-wise encoded record. -/
theorem decodeKVList_map (d : Json → Option α) (enc : α → Json)
    (hr : ∀ a, d (enc a) = some a) (l : List (String × α)) :
    decodeKVList d (l.map (fun kp => (kp.1, enc kp.2))) = some l := by
  induction l with
  | nil => rfl
  | cons kp rest ih =>
    dsimp only [List.map, decodeKVList]
    rw [hr kp.2, ih]

/-- `decodeKV` inverts `encodeKV`. -/
theorem decodeKV_encodeKV (d : Json → Option α) (enc : α → Json)
    (hr : ∀ a, d (enc a) = some a) (l : List (String × α)) :
    decodeKV d (encodeKV enc l) = some l := by
  unfold encodeKV decodeKV
  exact decodeKVList_map d enc hr l

/-- `decodeOpt` inverts `encodeOpt` for encoders that never produce
`null`. -/
theorem decodeOpt_encodeOpt (d : Json → Option α) (enc : α → Json)
    (hr : ∀ a, d (enc a) = some a) (henc : ∀ a, enc a ≠ Json.jnull) :
    ∀ x : Option α, decodeOpt d (encodeOpt enc x) = some x := by
  intro x
  cases x with
  | none => rfl
  | some a =>
    dsimp only [encodeOpt]
    have hr' := hr a
    cases h : enc a with
    | jnull => exact absurd h (henc a)
    | jbool b =>
      rw [h] at hr'
      dsimp only [decodeOpt]
      rw [hr']
      rfl
    | jnum n =>
      rw [h] at hr'
      dsimp only [decodeOpt]
      rw [hr']
      rfl
    | jstr t =>
      rw [h] at hr'
      dsimp only [decodeOpt]
      rw [hr']
      rfl
    | jarr xs =>
      rw [h] at hr'
      dsimp only [decodeOpt]
      rw [hr']
      rfl
    | jobj fs =>
      rw [h] at hr'
      dsimp only [decodeOpt]
      rw [hr']
      rfl

/-- `decodeFight` inverts `encodeFight`. -/
theorem decodeFight_encodeFight (f : FightState) : decodeFight (encodeFight f) = some f := by
  show (decodeOpt decodeCfg (encodeOpt encodeCfg f.cfg)).map
      (fun c => { cfg := c, stunned := f.stunned, poisonTurns := f.poisonTurns,
                  over := f.over }) = some f
  rw [decodeOpt_encodeOpt decodeCfg encodeCfg decodeCfg_encodeCfg
    (fun c h => Json.noConfusion h) f.cfg]
  rfl

/-- Claim C8: deserializing the serialization of any Ledger (the model of
`JSON.parse` applied to the model of `JSON.stringify`) yields the Ledger
back unchanged, with no field loss, including the nested inventory,
policies, merchant sub-state and fight sub-state; in particular this holds
for every reachable Ledger. -/
theorem C8_serialize_roundtrip (s : State) : decodeState (encodeState s) = some s := by
  show (match decodeInventory (encodeInventory s.inventory),
          decodeKV decodeBool (encodeKV (fun b => Json.jbool b) s.merchant_weapon_log),
          decodeOpt decodeStr (encodeOpt Json.jstr s.last_merchant_offer_type),
          decodeOwned (encodeOwned s.owned_weapon),
          decodeKV decodePolicy (encodeKV encodePolicy s.policies),
          decodeList decodeLog (List.map encodeLog s.logs),
          decodeOpt decodeOffer (encodeOpt encodeOffer s.pendingMerchant),
          decodeFight (encodeFight s.fight) with
        | some inv, some wl, some lastT, some ow, some pol, some logs, some pm, some f =>
          some
            { name := s.name
              day := s.day
              death_day := s.death_day
              money := s.money
              exmoney := s.exmoney
              pmoney := s.pmoney
              people := s.people
              maxpeople := s.maxpeople
              happiness := s.happiness
              phealth := s.phealth
              maxphealth := s.maxphealth
              strength := s.strength
              maxstrength := s.maxstrength
              ehealth := s.ehealth
              inventory := inv
              currentEra := s.currentEra
              currentSword := s.currentSword
              minDmg := s.minDmg
              maxDmg := s.maxDmg
              wfight := s.wfight
              lfight := s.lfight
              merchant_relationship := s.merchant_relationship
              merchant_weapon_log := wl
              last_merchant_offer_type := lastT
              number := s.number
              owned_weapon := ow
              policies := pol
              logs := logs
              pendingMerchant := pm
              fight := f }
        | _, _, _, _, _, _, _, _ => none) = some s
  rw [decodeInventory_encodeInventory s.inventory,
    decodeKV_encodeKV decodeBool (fun b => Json.jbool b) (fun b => rfl) s.merchant_weapon_log,
    decodeOpt_encodeOpt decodeStr Json.jstr (fun t => rfl) (fun t h => Json.noConfusion h)
      s.last_merchant_offer_type,
    decodeOwned_encodeOwned s.owned_weapon,
    decodeKV_encodeKV decodePolicy encodePolicy decodePolicy_encodePolicy s.policies,
    decodeList_map decodeLog encodeLog decodeLog_encodeLog s.logs,
    decodeOpt_encodeOpt decodeOffer encodeOffer decodeOffer_encodeOffer encodeOffer_ne_null
      s.pendingMerchant,
    decodeFight_encodeFight s.fight]

/-- Witness for C8 on the fresh Ledger. -/
theorem C8_serialize_roundtrip_witness :
    decodeState (encodeState (initialState [0])) = some (initialState [0]) :=
  C8_serialize_roundtrip (initialState [0])

/-- Claim C6: for every merchant offer the discount is
`discount_percent = merchant_relationship * 6` and the final price is
`base_price - floor(base_price * discount_percent / 100)`; with
relationship 3 the discount is 18% and base price 1000 discounts to 820. -/
theorem C6_discount_formula :
    (∀ (s : State) (base : Int),
      discountedPrice s base =
        (base - (base * (s.merchant_relationship * 6)).fdiv 100,
         s.merchant_relationship * 6)) ∧
    (∀ s : State, s.merchant_relationship = 3 →
      (discountedPrice s 1000).1 = 820 ∧ (discountedPrice s 1000).2 = 18) := by
  constructor
  · intro s base
    rfl
  · intro s h
    unfold discountedPrice
    rw [h]
    constructor <;> rfl

/-- Witness for C6 at a concrete state with relationship 3. -/
theorem C6_discount_formula_witness :
    (discountedPrice { initialState [0] with merchant_relationship := 3 } 1000).1 = 820 :=
  (C6_discount_formula.2 { initialState [0] with merchant_relationship := 3 } rfl).1

/-- Claim C7: invoking Buy Merchant with `money < offer.price` appends one
warn log entry and changes nothing else (offer pending, money, relationship,
equipment damage and inventory untouched), and a second invocation in the
resulting state again only appends a log entry. -/
theorem C7_refusal_idempotent (s : State) (p : MerchantOffer)
    (hp : s.pendingMerchant = some p) (hm : s.money < p.price) :
    buyMerchant s = appendLog s "You cannot afford it." Tag.warn ∧
    (buyMerchant s).pendingMerchant = s.pendingMerchant ∧
    (buyMerchant s).money = s.money ∧
    (buyMerchant s).inventory = s.inventory ∧
    (buyMerchant s).merchant_relationship = s.merchant_relationship ∧
    (buyMerchant s).minDmg = s.minDmg ∧
    (buyMerchant s).maxDmg = s.maxDmg ∧
    buyMerchant (buyMerchant s) =
      appendLog (appendLog s "You cannot afford it." Tag.warn)
        "You cannot afford it." Tag.warn := by
  have h1 : buyMerchant s = appendLog s "You cannot afford it." Tag.warn := by
    unfold buyMerchant
    rw [hp]
    exact if_pos hm
  have hp1 : (appendLog s "You cannot afford it." Tag.warn).pendingMerchant = some p := hp
  have hm1 : (appendLog s "You cannot afford it." Tag.warn).money < p.price := hm
  have h2 : buyMerchant (appendLog s "You cannot afford it." Tag.warn) =
      appendLog (appendLog s "You cannot afford it." Tag.warn)
        "You cannot afford it." Tag.warn := by
    unfold buyMerchant
    rw [hp1]
    exact if_pos hm1
  refine ⟨h1, ?_, ?_, ?_, ?_, ?_, ?_, ?_⟩ <;> rw [h1]
  · rfl
  · rfl
  · rfl
  · rfl
  · rfl
  · rfl
  · exact h2

/-- Witness for C7: an offer priced 700 against a treasury of 10 coins. -/
theorem C7_refusal_idempotent_witness :
    (buyMerchant { initialState [0] with
        money := 10,
        pendingMerchant := some (MerchantOffer.unique "Golden Cheese" (some UEffect.happiness) 5 700) }).money = 10 := by
  have h := C7_refusal_idempotent
    { initialState [0] with
        money := 10,
        pendingMerchant := some (MerchantOffer.unique "Golden Cheese" (some UEffect.happiness) 5 700) }
    (MerchantOffer.unique "Golden Cheese" (some UEffect.happiness) 5 700)
    rfl (by decide)
  exact h.2.2.1
